import Mathlib

/-!
Verification development for the vmapplet configuration core
(`src/vmapplet/options.py`) and the internode growth-rate engine
(`src/vmapplet/organs/internode.py`).

Python's dynamically typed values are shallowly embedded in the inductive
type `Py`; dictionary keys occurring in this program are either strings or
(year, key) tuples, embedded in `PyKey`.  Python floats are modelled by
exact rationals, machine-independent; fallible Python code (attribute and
type errors) is modelled with `Except String`.
-/

/-- A Python dictionary key as used by this program: a string, or a tuple
`(year, k)` built by the fate-table normalization (`fate[(i + 1, key)]`). -/
inductive PyKey where
  | s (v : String)
  | pair (year : Int) (k : PyKey)
deriving DecidableEq, Repr

/-- A Python value of the shapes this program manipulates. -/
inductive Py where
  | none
  | boolV (b : Bool)
  | intV (n : Int)
  | floatV (q : ℚ)
  | strV (v : String)
  | datetimeV (year month day : Nat)
  | listV (xs : List Py)
  | dictV (kvs : List (PyKey × Py))
  | tupleV (xs : List Py)
deriving Repr

/-- Embeds a dictionary key back into `Py` (a key obtained by iterating a
dict is an ordinary value). -/
def pyKeyToPy : PyKey → Py
  | .s v => .strV v
  | .pair y k => .tupleV [.intV y, pyKeyToPy k]

/-- `x.items()`: succeeds on a dict, raises `AttributeError` otherwise. -/
def pyItems : Py → Except String (List (PyKey × Py))
  | .dictV kvs => .ok kvs
  | _ => .error ("AttributeError: object has no attribute items")

/-- `enumerate(x)`: lists enumerate their elements, dicts their keys,
tuples their components, strings their characters; other values raise
`TypeError`. -/
def pyEnumerate : Py → Except String (List (Nat × Py))
  | .listV xs => .ok xs.enum
  | .dictV kvs => .ok (kvs.map (fun kv => pyKeyToPy kv.1)).enum
  | .tupleV xs => .ok xs.enum
  | .strV v => .ok (v.toList.map (fun c => Py.strV (String.mk [c]))).enum
  | _ => .error ("TypeError: object is not iterable")

/-- Python dict insertion `d[k] = v`: an existing key keeps its position
and gets the new value, a new key is appended. -/
def dictInsert (kvs : List (PyKey × Py)) (k : PyKey) (v : Py) :
    List (PyKey × Py) :=
  if kvs.any (fun kv => decide (kv.1 = k)) then
    kvs.map (fun kv => if kv.1 = k then (k, v) else kv)
  else
    kvs ++ [(k, v)]

/-- The inner normalization loop body: inserts every `(key, val)` item of
the entry at position `i` under the tuple key `(i + 1, key)`. -/
def fateInsertItems (i : Nat) (acc : List (PyKey × Py))
    (its : List (PyKey × Py)) : List (PyKey × Py) :=
  its.foldl
    (fun a kv => dictInsert a (PyKey.pair ((i : Int) + 1) kv.1) kv.2) acc

/-- One iteration of the normalization loop: `for key, val in item.items():
fate[(i + 1, key)] = val`. -/
def fateStep (acc : List (PyKey × Py)) (p : Nat × Py) :
    Except String (List (PyKey × Py)) := do
  let its ← pyItems p.2
  pure (fateInsertItems p.1 acc its)

/-- `OptionsMarkov.__post_init__`: the fate-table normalization.  If the
raw `terminal_fate` is `None` the result is `None`; otherwise the raw
value is enumerated and, for each position `i` and each `(key, val)` item
of the entry at that position, `(i + 1, key) ↦ val` is inserted into a
fresh dict. -/
def post_init_terminal_fate (tf : Py) : Except String Py :=
  match tf with
  | .none => .ok .none
  | _ => do
    let en ← pyEnumerate tf
    let fate ← en.foldlM fateStep ([] : List (PyKey × Py))
    pure (.dictV fate)

/-- Encodes a raw fate table — an ordered sequence of label-to-integer-list
mappings — as the `Py` value toml parsing would produce. -/
def encodeRawFate (xss : List (List (String × List Int))) : Py :=
  .listV (xss.map (fun m =>
    .dictV (m.map (fun kv => (PyKey.s kv.1, Py.listV (kv.2.map Py.intV))))))

/-- The normalized fate table the specification describes: position `i`
(0-based) contributes key `(i + 1, label)` for each of its pairs. -/
def expectedFate (xss : List (List (String × List Int))) : List (PyKey × Py) :=
  (xss.enum.map (fun p =>
    p.2.map (fun kv =>
      (PyKey.pair ((p.1 : Int) + 1) (PyKey.s kv.1),
       Py.listV (kv.2.map Py.intV))))).flatten

/-!
## The growth-rate engine (`src/vmapplet/organs/internode.py`)

Python floats are modelled by exact rationals.
-/

/-- The `Internode` state: the four constructor inputs and the eight
terminal-length constants precomputed by `__init__`. -/
structure Internode where
  min_length : ℚ
  plastochron : ℚ
  elongation_period : ℚ
  max_length : ℚ
  final_none : ℚ
  final_dormant_start : ℚ
  final_small : ℚ
  final_diffuse : ℚ
  final_medium : ℚ
  final_floral : ℚ
  final_dormant_end : ℚ
  final_else : ℚ

/-- `Internode.__init__(min_length, elongation_period, plastochron,
max_length)`: stores the four inputs and precomputes the eight
terminal-length constants. -/
def Internode.make (min_length elongation_period plastochron max_length : ℚ) :
    Internode :=
  { min_length := min_length
    plastochron := plastochron
    elongation_period := elongation_period
    max_length := max_length
    final_none := max_length / 1.5
    final_dormant_start := 0.25 * max_length / 1.5
    final_small := 0.5 * max_length / 1.5
    final_diffuse := max_length / 1.5
    final_medium := 0.75 * max_length / 1.5
    final_floral := 0.5 * max_length / 1.5
    final_dormant_end := 0.25 * max_length / 1.5
    final_else := 0.25 * max_length / 1.5 }

/-- `Internode.growth_rate(uzone)`: the if/elif chain over the zone label
(`Option.none` models Python's `None`). -/
def Internode.growth_rate (it : Internode) (uzone : Option String) : ℚ :=
  match uzone with
  | Option.none => it.final_none / it.elongation_period
  | some z =>
    if z = "dormant_start" then it.final_dormant_start / it.elongation_period
    else if z = "small" then it.final_small / it.elongation_period
    else if z = "diffuse" then it.final_diffuse / it.elongation_period
    else if z = "medium" then it.final_medium / it.elongation_period
    else if z = "floral" then it.final_floral / it.elongation_period
    else if z = "dormant_end" then it.final_dormant_end / it.elongation_period
    else it.final_else / it.elongation_period

/-- The per-zone terminal-length fraction as the specification words it:
none-sentinel and diffuse 1, medium 0.75, small and floral 0.5,
dormant_start, dormant_end and every other string 0.25. -/
def zoneFractionSpec (uzone : Option String) : ℚ :=
  match uzone with
  | Option.none => 1
  | some z =>
    if z = "diffuse" then 1
    else if z = "medium" then 0.75
    else if z = "small" then 0.5
    else if z = "floral" then 0.5
    else 0.25

/-!
## The configuration schema (`src/vmapplet/options.py`)

Each dataclass becomes a structure whose defaults are the source defaults;
`asdict` mirrors `dataclasses.asdict`, `fromDict` mirrors keyword-argument
construction `cls(**data)` from a parsed mapping (unexpected keywords are
an error, missing fields take their defaults).
-/

/-- Looks a string key up in a parsed mapping. -/
def dlookup (d : List (PyKey × Py)) (k : String) : Option Py :=
  (d.find? (fun kv => decide (kv.1 = PyKey.s k))).map (fun kv => kv.2)

/-- Every key of the mapping is a string among the group's declared field
names (`cls(**data)` rejects unexpected keyword arguments). -/
def kwargsOk (d : List (PyKey × Py)) (names : List String) : Bool :=
  d.all (fun kv => match kv.1 with
    | PyKey.s k => names.contains k
    | _ => false)

/-- Reads a float field (toml may carry an integer literal). -/
def getFloat (d : List (PyKey × Py)) (k : String) (dflt : ℚ) :
    Except String ℚ :=
  match dlookup d k with
  | Option.none => .ok dflt
  | some (.floatV q) => .ok q
  | some (.intV n) => .ok (n : ℚ)
  | some _ => .error ("TypeCoercionError: " ++ k)

/-- Reads an integer field. -/
def getInt (d : List (PyKey × Py)) (k : String) (dflt : Int) :
    Except String Int :=
  match dlookup d k with
  | Option.none => .ok dflt
  | some (.intV n) => .ok n
  | some _ => .error ("TypeCoercionError: " ++ k)

/-- Reads a boolean field. -/
def getBool (d : List (PyKey × Py)) (k : String) (dflt : Bool) :
    Except String Bool :=
  match dlookup d k with
  | Option.none => .ok dflt
  | some (.boolV b) => .ok b
  | some _ => .error ("TypeCoercionError: " ++ k)

/-- Reads a string field. -/
def getStr (d : List (PyKey × Py)) (k : String) (dflt : String) :
    Except String String :=
  match dlookup d k with
  | Option.none => .ok dflt
  | some (.strV v) => .ok v
  | some _ => .error ("TypeCoercionError: " ++ k)

/-- Reads a datetime field (year, month, day). -/
def getDatetime (d : List (PyKey × Py)) (k : String) (dflt : Nat × Nat × Nat) :
    Except String (Nat × Nat × Nat) :=
  match dlookup d k with
  | Option.none => .ok dflt
  | some (.datetimeV y m dd) => .ok (y, m, dd)
  | some _ => .error ("TypeCoercionError: " ++ k)

/-- Decodes a string-to-integer mapping. -/
def decodeStrInt : List (PyKey × Py) → Option (List (String × Int))
  | [] => some []
  | (PyKey.s k, Py.intV v) :: rest =>
    (decodeStrInt rest).map (fun r => (k, v) :: r)
  | _ => Option.none

/-- Reads a string-to-integer mapping field (the `events` entries). -/
def getStrIntDict (d : List (PyKey × Py)) (k : String)
    (dflt : List (String × Int)) : Except String (List (String × Int)) :=
  match dlookup d k with
  | Option.none => .ok dflt
  | some (.dictV kvs) =>
    match decodeStrInt kvs with
    | some m => .ok m
    | Option.none => .error ("TypeCoercionError: " ++ k)
  | some _ => .error ("TypeCoercionError: " ++ k)

/-- Decodes a string-to-string mapping. -/
def decodeStrStr : List (PyKey × Py) → Option (List (String × String))
  | [] => some []
  | (PyKey.s k, Py.strV v) :: rest =>
    (decodeStrStr rest).map (fun r => (k, v) :: r)
  | _ => Option.none

/-- Reads a string-to-string mapping field (`input.lpy_files`). -/
def getStrStrDict (d : List (PyKey × Py)) (k : String)
    (dflt : List (String × String)) : Except String (List (String × String)) :=
  match dlookup d k with
  | Option.none => .ok dflt
  | some (.dictV kvs) =>
    match decodeStrStr kvs with
    | some m => .ok m
    | Option.none => .error ("TypeCoercionError: " ++ k)
  | some _ => .error ("TypeCoercionError: " ++ k)

/-- Encodes a string-to-integer mapping. -/
def encodeStrInt (m : List (String × Int)) : Py :=
  .dictV (m.map (fun kv => (PyKey.s kv.1, Py.intV kv.2)))

/-- Encodes a string-to-string mapping. -/
def encodeStrStr (m : List (String × String)) : Py :=
  .dictV (m.map (fun kv => (PyKey.s kv.1, Py.strV kv.2)))

/-- Modelled from the spec: `input.lpy_path` "defaults to a path resolved
relative to the module's own install location"; the concrete install
location is outside the model, so it is abstracted as a fixed path
string. -/
def lpy_path_default : String := "vmapplet/lpy"

/-- `OptionsGeneral`. -/
structure OptionsGeneral where
  date_start : Nat × Nat × Nat := (1994, 1, 1)
  date_end : Nat × Nat × Nat := (1998, 6, 30)
  seed : Int := 1163078255
  second_year_draws : Bool := true
  ruptures : Bool := false
  stake : Bool := true
  select_trunk : Int := 0
  mechanics : Bool := true
  render_mode : String := "bark"
  stride_number : Int := 5
  pruning : Bool := false
  convergence_steps : Int := 2

/-- Declared field names of `OptionsGeneral`, in declaration order. -/
def OptionsGeneral.names : List String :=
  ["date_start", "date_end", "seed", "second_year_draws", "ruptures",
   "stake", "select_trunk", "mechanics", "render_mode", "stride_number",
   "pruning", "convergence_steps"]

/-- `dataclasses.asdict` for `OptionsGeneral`. -/
def OptionsGeneral.asdict (g : OptionsGeneral) : List (PyKey × Py) :=
  [(PyKey.s "date_start",
     Py.datetimeV g.date_start.1 g.date_start.2.1 g.date_start.2.2),
   (PyKey.s "date_end",
     Py.datetimeV g.date_end.1 g.date_end.2.1 g.date_end.2.2),
   (PyKey.s "seed", Py.intV g.seed),
   (PyKey.s "second_year_draws", Py.boolV g.second_year_draws),
   (PyKey.s "ruptures", Py.boolV g.ruptures),
   (PyKey.s "stake", Py.boolV g.stake),
   (PyKey.s "select_trunk", Py.intV g.select_trunk),
   (PyKey.s "mechanics", Py.boolV g.mechanics),
   (PyKey.s "render_mode", Py.strV g.render_mode),
   (PyKey.s "stride_number", Py.intV g.stride_number),
   (PyKey.s "pruning", Py.boolV g.pruning),
   (PyKey.s "convergence_steps", Py.intV g.convergence_steps)]

/-- `OptionsGeneral(**d)`. -/
def OptionsGeneral.fromDict (d : List (PyKey × Py)) :
    Except String OptionsGeneral :=
  if kwargsOk d OptionsGeneral.names then do
    let date_start ← getDatetime d "date_start" (1994, 1, 1)
    let date_end ← getDatetime d "date_end" (1998, 6, 30)
    let seed ← getInt d "seed" 1163078255
    let second_year_draws ← getBool d "second_year_draws" true
    let ruptures ← getBool d "ruptures" false
    let stake ← getBool d "stake" true
    let select_trunk ← getInt d "select_trunk" 0
    let mechanics ← getBool d "mechanics" true
    let render_mode ← getStr d "render_mode" "bark"
    let stride_number ← getInt d "stride_number" 5
    let pruning ← getBool d "pruning" false
    let convergence_steps ← getInt d "convergence_steps" 2
    pure { date_start := date_start, date_end := date_end, seed := seed,
           second_year_draws := second_year_draws, ruptures := ruptures,
           stake := stake, select_trunk := select_trunk,
           mechanics := mechanics, render_mode := render_mode,
           stride_number := stride_number, pruning := pruning,
           convergence_steps := convergence_steps }
  else .error ("TypeError: unexpected keyword argument")

/-- `OptionsOutput`. -/
structure OptionsOutput where
  sequences : Bool := false
  l_string : Bool := false
  light_interception : Bool := false
  counts : Bool := false
  trunk : Bool := false
  leaves : Bool := true
  mtg : Bool := false
  shoots : Bool := false

/-- Declared field names of `OptionsOutput`, in declaration order. -/
def OptionsOutput.names : List String :=
  ["sequences", "l_string", "light_interception", "counts", "trunk",
   "leaves", "mtg", "shoots"]

/-- `dataclasses.asdict` for `OptionsOutput`. -/
def OptionsOutput.asdict (g : OptionsOutput) : List (PyKey × Py) :=
  [(PyKey.s "sequences", Py.boolV g.sequences),
   (PyKey.s "l_string", Py.boolV g.l_string),
   (PyKey.s "light_interception", Py.boolV g.light_interception),
   (PyKey.s "counts", Py.boolV g.counts),
   (PyKey.s "trunk", Py.boolV g.trunk),
   (PyKey.s "leaves", Py.boolV g.leaves),
   (PyKey.s "mtg", Py.boolV g.mtg),
   (PyKey.s "shoots", Py.boolV g.shoots)]

/-- `OptionsOutput(**d)`. -/
def OptionsOutput.fromDict (d : List (PyKey × Py)) :
    Except String OptionsOutput :=
  if kwargsOk d OptionsOutput.names then do
    let sequences ← getBool d "sequences" false
    let l_string ← getBool d "l_string" false
    let light_interception ← getBool d "light_interception" false
    let counts ← getBool d "counts" false
    let trunk ← getBool d "trunk" false
    let leaves ← getBool d "leaves" true
    let mtg ← getBool d "mtg" false
    let shoots ← getBool d "shoots" false
    pure { sequences := sequences, l_string := l_string,
           light_interception := light_interception, counts := counts,
           trunk := trunk, leaves := leaves, mtg := mtg, shoots := shoots }
  else .error ("TypeError: unexpected keyword argument")

/-- `OptionsInput` (`Paths` is modelled from the spec as a string-to-string
mapping supplied by the external path-discovery utility). -/
structure OptionsInput where
  lpy_files : List (String × String) := []
  lpy_path : String := lpy_path_default

/-- Declared field names of `OptionsInput`, in declaration order. -/
def OptionsInput.names : List String := ["lpy_files", "lpy_path"]

/-- `dataclasses.asdict` for `OptionsInput`. -/
def OptionsInput.asdict (g : OptionsInput) : List (PyKey × Py) :=
  [(PyKey.s "lpy_files", encodeStrStr g.lpy_files),
   (PyKey.s "lpy_path", Py.strV g.lpy_path)]

/-- `OptionsInput(**d)`. -/
def OptionsInput.fromDict (d : List (PyKey × Py)) :
    Except String OptionsInput :=
  if kwargsOk d OptionsInput.names then do
    let lpy_files ← getStrStrDict d "lpy_files" []
    let lpy_path ← getStr d "lpy_path" lpy_path_default
    pure { lpy_files := lpy_files, lpy_path := lpy_path }
  else .error ("TypeError: unexpected keyword argument")

/-- `OptionsEvents`. -/
structure OptionsEvents where
  bud_break : List (String × Int) := [("day", 15), ("month", 5), ("duration", 1)]
  new_cambial_layer : List (String × Int) := [("day", 15), ("month", 5), ("duration", 1)]
  pre_harvest : List (String × Int) := [("day", 29), ("month", 10), ("duration", 1)]
  harvest : List (String × Int) := [("day", 30), ("month", 10), ("duration", 1)]
  autumn : List (String × Int) := [("day", 1), ("month", 11), ("duration", 45)]
  leaf_fall : List (String × Int) := [("day", 15), ("month", 11), ("duration", 45)]
  leaf_out : List (String × Int) := [("day", 25), ("month", 12), ("duration", 1)]

/-- Declared field names of `OptionsEvents`, in declaration order. -/
def OptionsEvents.names : List String :=
  ["bud_break", "new_cambial_layer", "pre_harvest", "harvest", "autumn",
   "leaf_fall", "leaf_out"]

/-- `dataclasses.asdict` for `OptionsEvents`. -/
def OptionsEvents.asdict (g : OptionsEvents) : List (PyKey × Py) :=
  [(PyKey.s "bud_break", encodeStrInt g.bud_break),
   (PyKey.s "new_cambial_layer", encodeStrInt g.new_cambial_layer),
   (PyKey.s "pre_harvest", encodeStrInt g.pre_harvest),
   (PyKey.s "harvest", encodeStrInt g.harvest),
   (PyKey.s "autumn", encodeStrInt g.autumn),
   (PyKey.s "leaf_fall", encodeStrInt g.leaf_fall),
   (PyKey.s "leaf_out", encodeStrInt g.leaf_out)]

/-- `OptionsEvents(**d)`. -/
def OptionsEvents.fromDict (d : List (PyKey × Py)) :
    Except String OptionsEvents :=
  if kwargsOk d OptionsEvents.names then do
    let bud_break ← getStrIntDict d "bud_break" [("day", 15), ("month", 5), ("duration", 1)]
    let new_cambial_layer ← getStrIntDict d "new_cambial_layer" [("day", 15), ("month", 5), ("duration", 1)]
    let pre_harvest ← getStrIntDict d "pre_harvest" [("day", 29), ("month", 10), ("duration", 1)]
    let harvest ← getStrIntDict d "harvest" [("day", 30), ("month", 10), ("duration", 1)]
    let autumn ← getStrIntDict d "autumn" [("day", 1), ("month", 11), ("duration", 45)]
    let leaf_fall ← getStrIntDict d "leaf_fall" [("day", 15), ("month", 11), ("duration", 45)]
    let leaf_out ← getStrIntDict d "leaf_out" [("day", 25), ("month", 12), ("duration", 1)]
    pure { bud_break := bud_break, new_cambial_layer := new_cambial_layer,
           pre_harvest := pre_harvest, harvest := harvest, autumn := autumn,
           leaf_fall := leaf_fall, leaf_out := leaf_out }
  else .error ("TypeError: unexpected keyword argument")

/-- `OptionsTree`. -/
structure OptionsTree where
  phyllotactic_angle : ℚ := -144.0
  branching_angle : ℚ := 45.0
  floral_angle : ℚ := -10.0
  tropism : ℚ := 0.1
  preformed_leaves : ℚ := 8
  spur_death_probability : ℚ := 0.3
  inflorescence_death_probability : ℚ := 0.2

/-- Declared field names of `OptionsTree`, in declaration order. -/
def OptionsTree.names : List String :=
  ["phyllotactic_angle", "branching_angle", "floral_angle", "tropism",
   "preformed_leaves", "spur_death_probability",
   "inflorescence_death_probability"]

/-- `dataclasses.asdict` for `OptionsTree`. -/
def OptionsTree.asdict (g : OptionsTree) : List (PyKey × Py) :=
  [(PyKey.s "phyllotactic_angle", Py.floatV g.phyllotactic_angle),
   (PyKey.s "branching_angle", Py.floatV g.branching_angle),
   (PyKey.s "floral_angle", Py.floatV g.floral_angle),
   (PyKey.s "tropism", Py.floatV g.tropism),
   (PyKey.s "preformed_leaves", Py.floatV g.preformed_leaves),
   (PyKey.s "spur_death_probability", Py.floatV g.spur_death_probability),
   (PyKey.s "inflorescence_death_probability",
     Py.floatV g.inflorescence_death_probability)]

/-- `OptionsTree(**d)`. -/
def OptionsTree.fromDict (d : List (PyKey × Py)) :
    Except String OptionsTree :=
  if kwargsOk d OptionsTree.names then do
    let phyllotactic_angle ← getFloat d "phyllotactic_angle" (-144.0)
    let branching_angle ← getFloat d "branching_angle" 45.0
    let floral_angle ← getFloat d "floral_angle" (-10.0)
    let tropism ← getFloat d "tropism" 0.1
    let preformed_leaves ← getFloat d "preformed_leaves" 8
    let spur_death_probability ← getFloat d "spur_death_probability" 0.3
    let inflorescence_death_probability ←
      getFloat d "inflorescence_death_probability" 0.2
    pure { phyllotactic_angle := phyllotactic_angle,
           branching_angle := branching_angle, floral_angle := floral_angle,
           tropism := tropism, preformed_leaves := preformed_leaves,
           spur_death_probability := spur_death_probability,
           inflorescence_death_probability := inflorescence_death_probability }
  else .error ("TypeError: unexpected keyword argument")

/-- `OptionsWood`. -/
structure OptionsWood where
  wood_density : ℚ := 1000
  reaction_wood_rate : ℚ := 0.5
  reaction_wood_inertia_coefficient : ℚ := 0.1
  youngs_modulus : ℚ := 1.1
  modulus_of_rupture : ℚ := 50000000

/-- Declared field names of `OptionsWood`, in declaration order. -/
def OptionsWood.names : List String :=
  ["wood_density", "reaction_wood_rate", "reaction_wood_inertia_coefficient",
   "youngs_modulus", "modulus_of_rupture"]

/-- `dataclasses.asdict` for `OptionsWood`. -/
def OptionsWood.asdict (g : OptionsWood) : List (PyKey × Py) :=
  [(PyKey.s "wood_density", Py.floatV g.wood_density),
   (PyKey.s "reaction_wood_rate", Py.floatV g.reaction_wood_rate),
   (PyKey.s "reaction_wood_inertia_coefficient",
     Py.floatV g.reaction_wood_inertia_coefficient),
   (PyKey.s "youngs_modulus", Py.floatV g.youngs_modulus),
   (PyKey.s "modulus_of_rupture", Py.floatV g.modulus_of_rupture)]

/-- `OptionsWood(**d)`. -/
def OptionsWood.fromDict (d : List (PyKey × Py)) :
    Except String OptionsWood :=
  if kwargsOk d OptionsWood.names then do
    let wood_density ← getFloat d "wood_density" 1000
    let reaction_wood_rate ← getFloat d "reaction_wood_rate" 0.5
    let reaction_wood_inertia_coefficient ←
      getFloat d "reaction_wood_inertia_coefficient" 0.1
    let youngs_modulus ← getFloat d "youngs_modulus" 1.1
    let modulus_of_rupture ← getFloat d "modulus_of_rupture" 50000000
    pure { wood_density := wood_density,
           reaction_wood_rate := reaction_wood_rate,
           reaction_wood_inertia_coefficient := reaction_wood_inertia_coefficient,
           youngs_modulus := youngs_modulus,
           modulus_of_rupture := modulus_of_rupture }
  else .error ("TypeError: unexpected keyword argument")

/-- `OptionsInternode`. -/
structure OptionsInternode where
  min_length : ℚ := 0.0001
  elongation_period : ℚ := 10.0
  plastochron : ℚ := 3.0
  max_length : ℚ := 0.03

/-- Declared field names of `OptionsInternode`, in declaration order. -/
def OptionsInternode.names : List String :=
  ["min_length", "elongation_period", "plastochron", "max_length"]

/-- `dataclasses.asdict` for `OptionsInternode`. -/
def OptionsInternode.asdict (g : OptionsInternode) : List (PyKey × Py) :=
  [(PyKey.s "min_length", Py.floatV g.min_length),
   (PyKey.s "elongation_period", Py.floatV g.elongation_period),
   (PyKey.s "plastochron", Py.floatV g.plastochron),
   (PyKey.s "max_length", Py.floatV g.max_length)]

/-- `OptionsInternode(**d)`. -/
def OptionsInternode.fromDict (d : List (PyKey × Py)) :
    Except String OptionsInternode :=
  if kwargsOk d OptionsInternode.names then do
    let min_length ← getFloat d "min_length" 0.0001
    let elongation_period ← getFloat d "elongation_period" 10.0
    let plastochron ← getFloat d "plastochron" 3.0
    let max_length ← getFloat d "max_length" 0.03
    pure { min_length := min_length, elongation_period := elongation_period,
           plastochron := plastochron, max_length := max_length }
  else .error ("TypeError: unexpected keyword argument")

/-- `OptionsApex`. -/
structure OptionsApex where
  terminal_expansion_rate : ℚ := 0.00002
  minimum_size : ℚ := 0.00075
  maximum_size : ℚ := 0.003

/-- Declared field names of `OptionsApex`, in declaration order. -/
def OptionsApex.names : List String :=
  ["terminal_expansion_rate", "minimum_size", "maximum_size"]

/-- `dataclasses.asdict` for `OptionsApex`. -/
def OptionsApex.asdict (g : OptionsApex) : List (PyKey × Py) :=
  [(PyKey.s "terminal_expansion_rate", Py.floatV g.terminal_expansion_rate),
   (PyKey.s "minimum_size", Py.floatV g.minimum_size),
   (PyKey.s "maximum_size", Py.floatV g.maximum_size)]

/-- `OptionsApex(**d)`. -/
def OptionsApex.fromDict (d : List (PyKey × Py)) :
    Except String OptionsApex :=
  if kwargsOk d OptionsApex.names then do
    let terminal_expansion_rate ← getFloat d "terminal_expansion_rate" 0.00002
    let minimum_size ← getFloat d "minimum_size" 0.00075
    let maximum_size ← getFloat d "maximum_size" 0.003
    pure { terminal_expansion_rate := terminal_expansion_rate,
           minimum_size := minimum_size, maximum_size := maximum_size }
  else .error ("TypeError: unexpected keyword argument")

/-- `OptionsMarkov`.  `terminal_fate` holds the post-`__post_init__` state:
`Py.none` or a dict keyed by `(year, label)` pairs; the pre-normalization
default is the empty dict, which normalizes to the empty dict. -/
structure OptionsMarkov where
  maximum_length : Int := 70
  minimum_length : Int := 4
  terminal_fate : Py := Py.dictV []

/-- Declared field names of `OptionsMarkov`, in declaration order. -/
def OptionsMarkov.names : List String :=
  ["maximum_length", "minimum_length", "terminal_fate"]

/-- `dataclasses.asdict` for `OptionsMarkov`. -/
def OptionsMarkov.asdict (g : OptionsMarkov) : List (PyKey × Py) :=
  [(PyKey.s "maximum_length", Py.intV g.maximum_length),
   (PyKey.s "minimum_length", Py.intV g.minimum_length),
   (PyKey.s "terminal_fate", g.terminal_fate)]

/-- `OptionsMarkov(**d)`: keyword construction followed by
`__post_init__`, which rewrites `terminal_fate` through the fate-table
normalization. -/
def OptionsMarkov.fromDict (d : List (PyKey × Py)) :
    Except String OptionsMarkov :=
  if kwargsOk d OptionsMarkov.names then do
    let maximum_length ← getInt d "maximum_length" 70
    let minimum_length ← getInt d "minimum_length" 4
    let raw := (dlookup d "terminal_fate").getD (Py.dictV [])
    let terminal_fate ← post_init_terminal_fate raw
    pure { maximum_length := maximum_length,
           minimum_length := minimum_length, terminal_fate := terminal_fate }
  else .error ("TypeError: unexpected keyword argument")

/-- `OptionsFruit`. -/
structure OptionsFruit where
  flower_duration : ℚ := 10.0
  max_relative_growth_rate : ℚ := 0.167
  lost_time : ℚ := 28
  max_age : ℚ := 147
  probability : ℚ := 0.3
  max_absolute_growth_rate : ℚ := 0.0018

/-- Declared field names of `OptionsFruit`, in declaration order. -/
def OptionsFruit.names : List String :=
  ["flower_duration", "max_relative_growth_rate", "lost_time", "max_age",
   "probability", "max_absolute_growth_rate"]

/-- `dataclasses.asdict` for `OptionsFruit`. -/
def OptionsFruit.asdict (g : OptionsFruit) : List (PyKey × Py) :=
  [(PyKey.s "flower_duration", Py.floatV g.flower_duration),
   (PyKey.s "max_relative_growth_rate", Py.floatV g.max_relative_growth_rate),
   (PyKey.s "lost_time", Py.floatV g.lost_time),
   (PyKey.s "max_age", Py.floatV g.max_age),
   (PyKey.s "probability", Py.floatV g.probability),
   (PyKey.s "max_absolute_growth_rate", Py.floatV g.max_absolute_growth_rate)]

/-- `OptionsFruit(**d)`. -/
def OptionsFruit.fromDict (d : List (PyKey × Py)) :
    Except String OptionsFruit :=
  if kwargsOk d OptionsFruit.names then do
    let flower_duration ← getFloat d "flower_duration" 10.0
    let max_relative_growth_rate ← getFloat d "max_relative_growth_rate" 0.167
    let lost_time ← getFloat d "lost_time" 28
    let max_age ← getFloat d "max_age" 147
    let probability ← getFloat d "probability" 0.3
    let max_absolute_growth_rate ← getFloat d "max_absolute_growth_rate" 0.0018
    pure { flower_duration := flower_duration,
           max_relative_growth_rate := max_relative_growth_rate,
           lost_time := lost_time, max_age := max_age,
           probability := probability,
           max_absolute_growth_rate := max_absolute_growth_rate }
  else .error ("TypeError: unexpected keyword argument")

/-- `OptionsLeaf`. -/
structure OptionsLeaf where
  fall_probability : ℚ := 0.1
  maturation : Int := 12
  mass_per_area : ℚ := 0.220
  max_area : ℚ := 0.003
  min_final_area : ℚ := 0.0020
  petiole_radius : ℚ := 0.0006
  preformed_leaves : Int := 8

/-- Declared field names of `OptionsLeaf`, in declaration order. -/
def OptionsLeaf.names : List String :=
  ["fall_probability", "maturation", "mass_per_area", "max_area",
   "min_final_area", "petiole_radius", "preformed_leaves"]

/-- `dataclasses.asdict` for `OptionsLeaf`. -/
def OptionsLeaf.asdict (g : OptionsLeaf) : List (PyKey × Py) :=
  [(PyKey.s "fall_probability", Py.floatV g.fall_probability),
   (PyKey.s "maturation", Py.intV g.maturation),
   (PyKey.s "mass_per_area", Py.floatV g.mass_per_area),
   (PyKey.s "max_area", Py.floatV g.max_area),
   (PyKey.s "min_final_area", Py.floatV g.min_final_area),
   (PyKey.s "petiole_radius", Py.floatV g.petiole_radius),
   (PyKey.s "preformed_leaves", Py.intV g.preformed_leaves)]

/-- `OptionsLeaf(**d)`. -/
def OptionsLeaf.fromDict (d : List (PyKey × Py)) :
    Except String OptionsLeaf :=
  if kwargsOk d OptionsLeaf.names then do
    let fall_probability ← getFloat d "fall_probability" 0.1
    let maturation ← getInt d "maturation" 12
    let mass_per_area ← getFloat d "mass_per_area" 0.220
    let max_area ← getFloat d "max_area" 0.003
    let min_final_area ← getFloat d "min_final_area" 0.0020
    let petiole_radius ← getFloat d "petiole_radius" 0.0006
    let preformed_leaves ← getInt d "preformed_leaves" 8
    pure { fall_probability := fall_probability, maturation := maturation,
           mass_per_area := mass_per_area, max_area := max_area,
           min_final_area := min_final_area, petiole_radius := petiole_radius,
           preformed_leaves := preformed_leaves }
  else .error ("TypeError: unexpected keyword argument")

/-- The `Options` root: one instance of each of the eleven sub-groups. -/
structure Options where
  general : OptionsGeneral := {}
  input : OptionsInput := {}
  output : OptionsOutput := {}
  events : OptionsEvents := {}
  tree : OptionsTree := {}
  wood : OptionsWood := {}
  internode : OptionsInternode := {}
  apex : OptionsApex := {}
  markov : OptionsMarkov := {}
  fruit : OptionsFruit := {}
  leaf : OptionsLeaf := {}

/-- A sub-group argument to the `Options` constructor: either an already
typed group instance or a raw parsed mapping. -/
inductive RawOr (α : Type) where
  | inst (g : α)
  | raw (d : List (PyKey × Py))

/-- `_make_dataclass(cls, data_or_cls)`: `cls(**data_or_cls)` when the
argument is a raw dict, the argument unmodified otherwise. -/
def make_dataclass {α : Type} (fromDict : List (PyKey × Py) → Except String α)
    (x : RawOr α) : Except String α :=
  match x with
  | .inst g => .ok g
  | .raw d => fromDict d

/-- `Options(...)` with `__post_init__`: each of the eleven sub-group slots
is either absent (`Option.none`, the `default_factory` builds an
all-defaults group) or supplied, and each supplied slot goes through
`_make_dataclass` independently. -/
def Options.construct
    (general : Option (RawOr OptionsGeneral))
    (input : Option (RawOr OptionsInput))
    (output : Option (RawOr OptionsOutput))
    (events : Option (RawOr OptionsEvents))
    (tree : Option (RawOr OptionsTree))
    (wood : Option (RawOr OptionsWood))
    (internode : Option (RawOr OptionsInternode))
    (apex : Option (RawOr OptionsApex))
    (markov : Option (RawOr OptionsMarkov))
    (fruit : Option (RawOr OptionsFruit))
    (leaf : Option (RawOr OptionsLeaf)) : Except String Options := do
  let general ← make_dataclass OptionsGeneral.fromDict (general.getD (.inst {}))
  let input ← make_dataclass OptionsInput.fromDict (input.getD (.inst {}))
  let output ← make_dataclass OptionsOutput.fromDict (output.getD (.inst {}))
  let events ← make_dataclass OptionsEvents.fromDict (events.getD (.inst {}))
  let tree ← make_dataclass OptionsTree.fromDict (tree.getD (.inst {}))
  let wood ← make_dataclass OptionsWood.fromDict (wood.getD (.inst {}))
  let internode ←
    make_dataclass OptionsInternode.fromDict (internode.getD (.inst {}))
  let apex ← make_dataclass OptionsApex.fromDict (apex.getD (.inst {}))
  let markov ← make_dataclass OptionsMarkov.fromDict (markov.getD (.inst {}))
  let fruit ← make_dataclass OptionsFruit.fromDict (fruit.getD (.inst {}))
  let leaf ← make_dataclass OptionsLeaf.fromDict (leaf.getD (.inst {}))
  pure { general := general, input := input, output := output,
         events := events, tree := tree, wood := wood,
         internode := internode, apex := apex, markov := markov,
         fruit := fruit, leaf := leaf }

/-- Declared field names of `Options`, in declaration order. -/
def Options.names : List String :=
  ["general", "input", "output", "events", "tree", "wood", "internode",
   "apex", "markov", "fruit", "leaf"]

/-- `dataclasses.asdict` for the root: every sub-group recursively becomes
a plain nested mapping. -/
def Options.asdict (o : Options) : List (PyKey × Py) :=
  [(PyKey.s "general", Py.dictV o.general.asdict),
   (PyKey.s "input", Py.dictV o.input.asdict),
   (PyKey.s "output", Py.dictV o.output.asdict),
   (PyKey.s "events", Py.dictV o.events.asdict),
   (PyKey.s "tree", Py.dictV o.tree.asdict),
   (PyKey.s "wood", Py.dictV o.wood.asdict),
   (PyKey.s "internode", Py.dictV o.internode.asdict),
   (PyKey.s "apex", Py.dictV o.apex.asdict),
   (PyKey.s "markov", Py.dictV o.markov.asdict),
   (PyKey.s "fruit", Py.dictV o.fruit.asdict),
   (PyKey.s "leaf", Py.dictV o.leaf.asdict)]

/-- Turns a parsed top-level section into a constructor slot: an absent
section is absent, a nested mapping is a raw dict, anything else cannot be
a sub-group. -/
def slotOf (α : Type) (kvs : List (PyKey × Py)) (name : String) :
    Except String (Option (RawOr α)) :=
  match dlookup kvs name with
  | Option.none => .ok Option.none
  | some (.dictV d) => .ok (some (.raw d))
  | some _ => .error ("TypeCoercionError: " ++ name)

/-- `Options(**parsed)`: the parsed top-level mapping feeds the eleven
constructor slots. -/
def Options.fromPy (p : Py) : Except String Options :=
  match p with
  | .dictV kvs =>
    if kwargsOk kvs Options.names then do
      let general ← slotOf OptionsGeneral kvs "general"
      let input ← slotOf OptionsInput kvs "input"
      let output ← slotOf OptionsOutput kvs "output"
      let events ← slotOf OptionsEvents kvs "events"
      let tree ← slotOf OptionsTree kvs "tree"
      let wood ← slotOf OptionsWood kvs "wood"
      let internode ← slotOf OptionsInternode kvs "internode"
      let apex ← slotOf OptionsApex kvs "apex"
      let markov ← slotOf OptionsMarkov kvs "markov"
      let fruit ← slotOf OptionsFruit kvs "fruit"
      let leaf ← slotOf OptionsLeaf kvs "leaf"
      Options.construct general input output events tree wood internode apex
        markov fruit leaf
    else .error ("TypeError: unexpected keyword argument")
  | _ => .error ("TypeError: argument is not a mapping")

/-- Modelled from the spec: the third-party toml text layer.  The spec
describes it only as "a structured, section-oriented, human-editable text
encoding" in which "scalar, date, mapping, and list values are
representable natively" and requires implementers to pick a stable,
loadable encoding for the fate table's pair keys; the concrete syntax is
abstracted away and the text is modelled as a faithful carrier of the
dumped value. -/
structure TomlText where
  data : Py

/-- Modelled from the spec: `toml.dumps`. -/
def tomlDumps (p : Py) : TomlText := ⟨p⟩

/-- Modelled from the spec: `toml.loads`, inverse to `tomlDumps` on the
value domain. -/
def tomlLoads (t : TomlText) : Except String Py := .ok t.data

/-- `Options.dumps`: `toml.dumps(dc.asdict(self))`. -/
def Options.dumps (o : Options) : TomlText :=
  tomlDumps (.dictV o.asdict)

/-- `Options.loads`: `Options(**toml.loads(options))`. -/
def Options.loads (t : TomlText) : Except String Options := do
  let p ← tomlLoads t
  Options.fromPy p

/-!
## Claim theorems: growth-rate engine
-/

/-- C1: for every Internode constructed with numeric inputs,
`growth_rate(zone_label)` returns `terminal_length(zone_label) /
elongation_period` where the terminal length is `max_length / 1.5` times
the per-zone fraction (none and diffuse 1, medium 0.75, small and floral
0.5, everything else 0.25); it is total, and with `max_length = 0.03`,
`elongation_period = 10.0` it yields 0.001 for small, 0.002 for the none
sentinel and 0.0005 for an unrecognized label. -/
theorem growth_rate_matches_spec_fractions :
    (∀ (min_length elongation_period plastochron max_length : ℚ)
       (uzone : Option String),
      (Internode.make min_length elongation_period plastochron
          max_length).growth_rate uzone
        = zoneFractionSpec uzone * (max_length / 1.5) / elongation_period) ∧
    (Internode.make 0.0001 10.0 3.0 0.03).growth_rate (some "small") = 0.001 ∧
    (Internode.make 0.0001 10.0 3.0 0.03).growth_rate Option.none = 0.002 ∧
    (Internode.make 0.0001 10.0 3.0 0.03).growth_rate
      (some "unrecognized_label") = 0.0005 := by
  refine ⟨?_,
    by simp [Internode.make, Internode.growth_rate]; norm_num,
    by simp [Internode.make, Internode.growth_rate]; norm_num,
    by simp [Internode.make, Internode.growth_rate]; norm_num⟩
  intro a el p mx uzone
  rcases uzone with _ | z
  · simp [Internode.make, Internode.growth_rate, zoneFractionSpec]
  · simp only [Internode.make, Internode.growth_rate, zoneFractionSpec]
    split_ifs <;> try ring1
    all_goals simp_all

/-- C9: `growth_rate` does not depend on `min_length` or `plastochron`:
two instances sharing `elongation_period` and `max_length` agree on every
zone label. -/
theorem growth_rate_ignores_min_length_plastochron :
    ∀ (min_length1 plastochron1 min_length2 plastochron2
       elongation_period max_length : ℚ) (uzone : Option String),
      (Internode.make min_length1 elongation_period plastochron1
          max_length).growth_rate uzone
        = (Internode.make min_length2 elongation_period plastochron2
            max_length).growth_rate uzone := by
  intro a b c e el mx z
  rcases z with _ | z <;> rfl

/-- C10: for every Internode instance the zone equalities
`growth_rate(None) = growth_rate(diffuse)`, `growth_rate(small) =
growth_rate(floral)` and `growth_rate(dormant_start) =
growth_rate(dormant_end) = growth_rate(l)` for every unrecognized string
`l` hold unconditionally; and under `max_length ≥ 0`,
`elongation_period > 0`, every zone's rate is at most the none-sentinel
rate. -/
theorem growth_rate_zone_relations
    (min_length elongation_period plastochron max_length : ℚ) (l : String)
    (z : Option String) :
    (Internode.make min_length elongation_period plastochron
        max_length).growth_rate Option.none
      = (Internode.make min_length elongation_period plastochron
          max_length).growth_rate (some "diffuse") ∧
    (Internode.make min_length elongation_period plastochron
        max_length).growth_rate (some "small")
      = (Internode.make min_length elongation_period plastochron
          max_length).growth_rate (some "floral") ∧
    (Internode.make min_length elongation_period plastochron
        max_length).growth_rate (some "dormant_start")
      = (Internode.make min_length elongation_period plastochron
          max_length).growth_rate (some "dormant_end") ∧
    (l ∉ ["dormant_start", "small", "diffuse", "medium", "floral",
          "dormant_end"] →
      (Internode.make min_length elongation_period plastochron
          max_length).growth_rate (some l)
        = (Internode.make min_length elongation_period plastochron
            max_length).growth_rate (some "dormant_start")) ∧
    (0 ≤ max_length → 0 < elongation_period →
      (Internode.make min_length elongation_period plastochron
          max_length).growth_rate z
        ≤ (Internode.make min_length elongation_period plastochron
            max_length).growth_rate Option.none) := by
  refine ⟨by simp [Internode.make, Internode.growth_rate],
          by simp [Internode.make, Internode.growth_rate],
          by simp [Internode.make, Internode.growth_rate],
          ?_, ?_⟩
  · intro hl
    simp only [List.mem_cons, List.mem_singleton] at hl
    push_neg at hl
    obtain ⟨h1, h2, h3, h4, h5, h6⟩ := hl
    simp [Internode.make, Internode.growth_rate, h1, h2, h3, h4, h5, h6]
  · intro hmx hel
    rcases z with _ | z
    · exact le_refl _
    · simp only [Internode.make, Internode.growth_rate]
      split_ifs <;> first
        | exact le_refl _
        | (gcongr
           nlinarith)

/-- Witness for C10 at concrete inputs, discharging the hypotheses of the
conditional conjuncts. -/
theorem growth_rate_zone_relations_witness :
    (("x" : String) ∉ ["dormant_start", "small", "diffuse", "medium",
        "floral", "dormant_end"]) ∧ 0 ≤ (0.03 : ℚ) ∧ 0 < (10.0 : ℚ) ∧
    ((Internode.make 0.0001 10.0 3.0 0.03).growth_rate Option.none
        = (Internode.make 0.0001 10.0 3.0 0.03).growth_rate (some "diffuse") ∧
     (Internode.make 0.0001 10.0 3.0 0.03).growth_rate (some "small")
        = (Internode.make 0.0001 10.0 3.0 0.03).growth_rate (some "floral") ∧
     (Internode.make 0.0001 10.0 3.0 0.03).growth_rate (some "dormant_start")
        = (Internode.make 0.0001 10.0 3.0 0.03).growth_rate
            (some "dormant_end") ∧
     (Internode.make 0.0001 10.0 3.0 0.03).growth_rate (some "x")
        = (Internode.make 0.0001 10.0 3.0 0.03).growth_rate
            (some "dormant_start") ∧
     (Internode.make 0.0001 10.0 3.0 0.03).growth_rate (some "small")
        ≤ (Internode.make 0.0001 10.0 3.0 0.03).growth_rate Option.none) := by
  have h := growth_rate_zone_relations 0.0001 10.0 3.0 0.03 "x" (some "small")
  exact ⟨by decide, by norm_num, by norm_num,
    h.1, h.2.1, h.2.2.1, h.2.2.2.1 (by decide),
    h.2.2.2.2 (by norm_num) (by norm_num)⟩

/-!
## Claim theorems: fate-table normalization
-/

/-- One raw fate-table entry as toml parsing encodes it. -/
def encodeFateEntry (m : List (String × List Int)) : Py :=
  .dictV (m.map (fun kv => (PyKey.s kv.1, Py.listV (kv.2.map Py.intV))))

/-- The expected normalized table for raw positions starting at `i`. -/
def expectedFateFrom (i : Nat) (xss : List (List (String × List Int))) :
    List (PyKey × Py) :=
  ((xss.enumFrom i).map (fun p =>
    p.2.map (fun kv =>
      (PyKey.pair ((p.1 : Int) + 1) (PyKey.s kv.1),
       Py.listV (kv.2.map Py.intV))))).flatten

/-- Is the value a dict? -/
def Py.isDictV : Py → Bool
  | .dictV _ => true
  | _ => false

lemma except_pure {ε α : Type} (a : α) :
    (pure a : Except ε α) = Except.ok a := rfl

lemma except_bind_ok {ε α β : Type} (a : α) (f : α → Except ε β) :
    (Except.ok a >>= f) = f a := rfl

lemma except_bind_err {ε α β : Type} (e : ε) (f : α → Except ε β) :
    ((Except.error e : Except ε α) >>= f) = Except.error e := rfl

lemma dictInsert_fresh (acc : List (PyKey × Py)) (k : PyKey) (v : Py)
    (h : ∀ kv ∈ acc, kv.1 ≠ k) : dictInsert acc k v = acc ++ [(k, v)] := by
  have hany : acc.any (fun kv => decide (kv.1 = k)) = false := by
    rw [List.any_eq_false]
    intro kv hkv
    simpa using h kv hkv
  unfold dictInsert
  rw [hany]
  simp

lemma fateInsertItems_fresh (i : Nat) :
    ∀ (m acc : List (PyKey × Py)),
      (∀ kv ∈ m, ∀ kv2 ∈ acc, PyKey.pair ((i : Int) + 1) kv.1 ≠ kv2.1) →
      (m.map Prod.fst).Nodup →
      fateInsertItems i acc m
        = acc ++ m.map (fun kv => (PyKey.pair ((i : Int) + 1) kv.1, kv.2)) := by
  intro m
  induction m with
  | nil => intro acc _ _; simp [fateInsertItems]
  | cons kv rest ih =>
    intro acc hfresh hnd
    simp only [List.map_cons, List.nodup_cons] at hnd
    have h1 : dictInsert acc (PyKey.pair ((i : Int) + 1) kv.1) kv.2
        = acc ++ [(PyKey.pair ((i : Int) + 1) kv.1, kv.2)] := by
      apply dictInsert_fresh
      intro kv2 hkv2
      exact (hfresh kv (List.mem_cons_self _ _) kv2 hkv2).symm
    have hstep : fateInsertItems i acc (kv :: rest)
        = fateInsertItems i
            (acc ++ [(PyKey.pair ((i : Int) + 1) kv.1, kv.2)]) rest := by
      simp [fateInsertItems, List.foldl_cons, h1]
    rw [hstep, ih]
    · simp
    · intro kv' hkv' kv2 hkv2
      rcases List.mem_append.mp hkv2 with hin | hin
      · exact hfresh kv' (List.mem_cons_of_mem _ hkv') kv2 hin
      · simp only [List.mem_singleton] at hin
        subst hin
        simp only [ne_eq, PyKey.pair.injEq]
        intro hc
        exact hnd.1 (hc.2 ▸ List.mem_map_of_mem Prod.fst hkv')
    · exact hnd.2

lemma foldlM_fateStep_ok :
    ∀ (xss : List (List (String × List Int))) (i : Nat)
      (acc : List (PyKey × Py)),
      (∀ m ∈ xss, (m.map Prod.fst).Nodup) →
      (∀ kv ∈ acc, ∃ y k, kv.1 = PyKey.pair y k ∧ y < (i : Int) + 1) →
      ((xss.map encodeFateEntry).enumFrom i).foldlM fateStep acc
        = .ok (acc ++ expectedFateFrom i xss) := by
  intro xss
  induction xss with
  | nil => intro i acc _ _; simp [expectedFateFrom, List.enumFrom, except_pure]
  | cons m rest ih =>
    intro i acc hnd hacc
    have hstep : fateStep acc (i, encodeFateEntry m)
        = .ok (acc ++ m.map (fun kv =>
            (PyKey.pair ((i : Int) + 1) (PyKey.s kv.1),
             Py.listV (kv.2.map Py.intV)))) := by
      have hfr : fateInsertItems i acc
          (m.map (fun kv => (PyKey.s kv.1, Py.listV (kv.2.map Py.intV))))
          = acc ++ (m.map (fun kv =>
              (PyKey.s kv.1, Py.listV (kv.2.map Py.intV)))).map
              (fun kv => (PyKey.pair ((i : Int) + 1) kv.1, kv.2)) := by
        apply fateInsertItems_fresh
        · intro kv hkv kv2 hkv2
          obtain ⟨y, k, hk, hy⟩ := hacc kv2 hkv2
          rw [hk]
          simp only [ne_eq, PyKey.pair.injEq, not_and]
          intro hc
          omega
        · have hmm : ((m.map (fun kv =>
              (PyKey.s kv.1, Py.listV (kv.2.map Py.intV)))).map Prod.fst)
              = (m.map Prod.fst).map PyKey.s := by
            simp [List.map_map, Function.comp]
          rw [hmm]
          exact (hnd m (List.mem_cons_self _ _)).map
            (fun a b h => by simpa using h)
      simp only [fateStep, pyItems, encodeFateEntry, except_bind_ok, hfr]
      simp [List.map_map, Function.comp_def, except_pure]
    have henum : ((m :: rest).map encodeFateEntry).enumFrom i
        = (i, encodeFateEntry m)
            :: (rest.map encodeFateEntry).enumFrom (i + 1) := rfl
    rw [henum, List.foldlM_cons, hstep, except_bind_ok, ih (i + 1)]
    · simp only [expectedFateFrom, List.enumFrom, List.map_cons,
        List.flatten_cons, ← List.append_assoc]
    · exact fun m' hm' => hnd m' (List.mem_cons_of_mem _ hm')
    · intro kv hkv
      rcases List.mem_append.mp hkv with hin | hin
      · obtain ⟨y, k, hk, hy⟩ := hacc kv hin
        exact ⟨y, k, hk, by push_cast; omega⟩
      · obtain ⟨kv0, _, rfl⟩ := List.mem_map.mp hin
        exact ⟨(i : Int) + 1, PyKey.s kv0.1, rfl, by push_cast; omega⟩

lemma encodeRawFate_eq (xss : List (List (String × List Int))) :
    encodeRawFate xss = .listV (xss.map encodeFateEntry) := rfl

lemma expectedFate_eq (xss : List (List (String × List Int))) :
    expectedFate xss = expectedFateFrom 0 xss := rfl

/-- C2: the absent sentinel normalizes to the absent sentinel, and an
ordered sequence of label-to-integer-list mappings normalizes to exactly
the mapping holding `(i + 1, label) ↦ value-list` for each 0-based
position `i` and each pair of the mapping there — and nothing else. -/
theorem fate_normalization_exact :
    post_init_terminal_fate Py.none = .ok Py.none ∧
    ∀ (xss : List (List (String × List Int))),
      (∀ m ∈ xss, (m.map Prod.fst).Nodup) →
      post_init_terminal_fate (encodeRawFate xss)
        = .ok (.dictV (expectedFate xss)) := by
  refine ⟨rfl, ?_⟩
  intro xss hnd
  rw [encodeRawFate_eq]
  show (do
    let en ← pyEnumerate (Py.listV (xss.map encodeFateEntry))
    let fate ← en.foldlM fateStep ([] : List (PyKey × Py))
    pure (.dictV fate) : Except String Py) = _
  rw [show pyEnumerate (Py.listV (xss.map encodeFateEntry))
      = .ok ((xss.map encodeFateEntry).enumFrom 0) from rfl]
  rw [except_bind_ok]
  rw [foldlM_fateStep_ok xss 0 [] hnd (by simp)]
  rw [except_bind_ok, expectedFate_eq]
  simp [except_pure]

/-- Witness for C2: the specification's concrete example. -/
theorem fate_normalization_exact_witness :
    (∀ m ∈ [[("A", [1, 2])], [("A", [3]), ("B", [4])]],
      ((m : List (String × List Int)).map Prod.fst).Nodup) ∧
    post_init_terminal_fate
        (encodeRawFate [[("A", [1, 2])], [("A", [3]), ("B", [4])]])
      = .ok (.dictV
          [(PyKey.pair 1 (PyKey.s "A"), Py.listV [Py.intV 1, Py.intV 2]),
           (PyKey.pair 2 (PyKey.s "A"), Py.listV [Py.intV 3]),
           (PyKey.pair 2 (PyKey.s "B"), Py.listV [Py.intV 4])]) :=
  ⟨by decide,
   ((fate_normalization_exact.2 [[("A", [1, 2])], [("A", [3]), ("B", [4])]]
      (by decide)).trans (by rfl))⟩

lemma pyItems_error_of_not_dict (x : Py) (h : x.isDictV = false) :
    pyItems x = .error ("AttributeError: object has no attribute items") := by
  cases x <;> simp_all [Py.isDictV, pyItems]

lemma foldlM_fateStep_error :
    ∀ (xs : List Py) (i : Nat) (acc : List (PyKey × Py)),
      (∃ x ∈ xs, x.isDictV = false) →
      ∃ e, (xs.enumFrom i).foldlM fateStep acc = Except.error e := by
  intro xs
  induction xs with
  | nil => intro i acc h; simp at h
  | cons x rest ih =>
    intro i acc h
    cases hx : x.isDictV
    · refine ⟨"AttributeError: object has no attribute items", ?_⟩
      have hs : fateStep acc (i, x)
          = .error ("AttributeError: object has no attribute items") := by
        simp [fateStep, pyItems_error_of_not_dict x hx, except_bind_err]
      rw [show (x :: rest).enumFrom i = (i, x) :: rest.enumFrom (i + 1)
          from rfl,
        List.foldlM_cons, hs, except_bind_err]
    · rcases x with _ | _ | _ | _ | _ | _ | _ | kvs | _ <;>
        simp [Py.isDictV] at hx
      have hw : ∃ y ∈ rest, y.isDictV = false := by
        rcases h with ⟨w, hw1, hw2⟩
        rcases List.mem_cons.mp hw1 with rfl | hin
        · simp [Py.isDictV] at hw2
        · exact ⟨w, hin, hw2⟩
      obtain ⟨e, he⟩ := ih (i + 1) (fateInsertItems i acc kvs) hw
      refine ⟨e, ?_⟩
      rw [show (Py.dictV kvs :: rest).enumFrom i
          = (i, Py.dictV kvs) :: rest.enumFrom (i + 1) from rfl,
        List.foldlM_cons,
        show fateStep acc (i, Py.dictV kvs) = .ok (fateInsertItems i acc kvs)
          from rfl,
        except_bind_ok, he]

/-- C5 counterexample: the raw input `[{"A": 5}]`, whose entry value `5`
is not a sequence of integers, is accepted without any error — the value
is stored as-is under `(1, "A")`. -/
theorem fate_malformed_value_silently_accepted :
    post_init_terminal_fate (Py.listV [Py.dictV [(PyKey.s "A", Py.intV 5)]])
      = .ok (.dictV [(PyKey.pair 1 (PyKey.s "A"), Py.intV 5)]) := rfl

/-- C5 amended: a position whose entry is not a mapping raises an error
(the attribute error of `item.items()`, there is no dedicated
`MalformedFateTableError`), while an entry value that is not an integer
sequence is silently accepted. -/
theorem fate_nondict_entry_errors :
    ∀ (xs : List Py), (∃ x ∈ xs, x.isDictV = false) →
      ∃ e, post_init_terminal_fate (Py.listV xs) = .error e := by
  intro xs h
  obtain ⟨e, he⟩ := foldlM_fateStep_error xs 0 [] h
  refine ⟨e, ?_⟩
  show (do
    let en ← pyEnumerate (Py.listV xs)
    let fate ← en.foldlM fateStep ([] : List (PyKey × Py))
    pure (.dictV fate) : Except String Py) = _
  rw [show pyEnumerate (Py.listV xs) = .ok (xs.enumFrom 0) from rfl,
    except_bind_ok, he, except_bind_err]

/-- Witness for the amended C5 statement. -/
theorem fate_nondict_entry_errors_witness :
    (∃ x ∈ [Py.intV 3], x.isDictV = false) ∧
    ∃ e, post_init_terminal_fate (Py.listV [Py.intV 3]) = .error e :=
  ⟨⟨Py.intV 3, by simp, rfl⟩,
   fate_nondict_entry_errors [Py.intV 3] ⟨Py.intV 3, by simp, rfl⟩⟩

lemma pyItems_pyKeyToPy_error (k : PyKey) :
    pyItems (pyKeyToPy k)
      = .error ("AttributeError: object has no attribute items") := by
  cases k <;> rfl

/-- C7: the normalization is not idempotent — replaying it on any
non-empty normalized output fails with an error instead of returning the
same mapping (enumerating the dict yields its tuple keys, which have no
`items`). -/
theorem fate_normalization_not_idempotent :
    ∀ (raw : Py) (kvs : List (PyKey × Py)),
      post_init_terminal_fate raw = .ok (.dictV kvs) → kvs ≠ [] →
      ∃ e, post_init_terminal_fate (Py.dictV kvs) = .error e := by
  intro raw kvs _ hne
  rcases kvs with _ | ⟨kv, rest⟩
  · exact absurd rfl hne
  refine ⟨"AttributeError: object has no attribute items", ?_⟩
  show (do
    let en ← pyEnumerate (Py.dictV (kv :: rest))
    let fate ← en.foldlM fateStep ([] : List (PyKey × Py))
    pure (.dictV fate) : Except String Py) = _
  rw [show pyEnumerate (Py.dictV (kv :: rest))
      = .ok (((kv :: rest).map (fun kv => pyKeyToPy kv.1)).enumFrom 0)
      from rfl]
  rw [except_bind_ok,
    show ((kv :: rest).map (fun kv => pyKeyToPy kv.1)).enumFrom 0
      = (0, pyKeyToPy kv.1)
          :: (rest.map (fun kv => pyKeyToPy kv.1)).enumFrom 1 from rfl,
    List.foldlM_cons]
  rw [show fateStep [] (0, pyKeyToPy kv.1)
      = .error ("AttributeError: object has no attribute items") by
    simp [fateStep, pyItems_pyKeyToPy_error, except_bind_err]]
  rw [except_bind_err, except_bind_err]

/-- Witness for C7: normalizing `[{"A": [1]}]` and replaying the
normalization on the result errors. -/
theorem fate_normalization_not_idempotent_witness :
    post_init_terminal_fate (encodeRawFate [[("A", [1])]])
      = .ok (.dictV [(PyKey.pair 1 (PyKey.s "A"), Py.listV [Py.intV 1])]) ∧
    ([(PyKey.pair 1 (PyKey.s "A"), Py.listV [Py.intV 1])] :
        List (PyKey × Py)) ≠ [] ∧
    ∃ e, post_init_terminal_fate
        (Py.dictV [(PyKey.pair 1 (PyKey.s "A"), Py.listV [Py.intV 1])])
      = .error e :=
  ⟨rfl, by simp,
   fate_normalization_not_idempotent (encodeRawFate [[("A", [1])]])
     [(PyKey.pair 1 (PyKey.s "A"), Py.listV [Py.intV 1])] rfl (by simp)⟩

/-!
## Claim theorems: field access (`OptionsBase.__getitem__`)
-/

/-- `OptionsBase.__getitem__`: `dc.asdict(self)[key]` — a `KeyError` when
the key is not a declared field. -/
def optGet (entries : List (PyKey × Py)) (key : String) : Except String Py :=
  match entries.find? (fun kv => decide (kv.1 = PyKey.s key)) with
  | some kv => .ok kv.2
  | Option.none => .error ("KeyError: " ++ key)

lemma optGet_error_of_not_field (entries : List (PyKey × Py)) (key : String)
    (h : ∀ kv ∈ entries, kv.1 ≠ PyKey.s key) :
    optGet entries key = .error ("KeyError: " ++ key) := by
  have hf : entries.find? (fun kv => decide (kv.1 = PyKey.s key))
      = Option.none :=
    List.find?_eq_none.mpr (fun kv hkv => by simpa using h kv hkv)
  unfold optGet
  rw [hf]

lemma optGet_ok_iff :
    ∀ (entries : List (PyKey × Py)), (entries.map Prod.fst).Nodup →
      ∀ (key : String) (v : Py),
        (optGet entries key = .ok v ↔ (PyKey.s key, v) ∈ entries) := by
  intro entries
  induction entries with
  | nil => intro _ key v; simp [optGet]
  | cons kv rest ih =>
    obtain ⟨k0, v0⟩ := kv
    intro hnd key v
    simp only [List.map_cons, List.nodup_cons] at hnd
    by_cases hk : k0 = PyKey.s key
    · have hh : optGet ((k0, v0) :: rest) key = .ok v0 := by
        unfold optGet
        rw [List.find?_cons_of_pos _ (by simpa using hk)]
      rw [hh]
      constructor
      · intro h
        obtain rfl : v0 = v := by simpa using h
        exact List.mem_cons.mpr (Or.inl (by rw [hk]))
      · intro h
        rcases List.mem_cons.mp h with he | hin
        · simp only [Prod.mk.injEq] at he
          rw [he.2]
        · exact absurd (hk ▸ List.mem_map_of_mem Prod.fst hin) hnd.1
    · have hh : optGet ((k0, v0) :: rest) key = optGet rest key := by
        unfold optGet
        rw [List.find?_cons_of_neg _ (by simpa using hk)]
      rw [hh, ih hnd.2]
      constructor
      · exact fun h => List.mem_cons_of_mem _ h
      · intro h
        rcases List.mem_cons.mp h with he | hin
        · exact absurd (congrArg Prod.fst he).symm hk
        · exact hin

lemma group_getitem_spec {G : Type} (asdictF : G → List (PyKey × Py))
    (names : List String)
    (hkeys : ∀ g, (asdictF g).map Prod.fst = names.map PyKey.s)
    (hnd : names.Nodup) (g : G) (key : String) :
    (key ∉ names → optGet (asdictF g) key = .error ("KeyError: " ++ key)) ∧
    (∀ v, optGet (asdictF g) key = .ok v ↔ (PyKey.s key, v) ∈ asdictF g) := by
  constructor
  · intro hnot
    apply optGet_error_of_not_field
    intro kv hkv
    have hmem : kv.1 ∈ names.map PyKey.s := by
      rw [← hkeys g]
      exact List.mem_map_of_mem Prod.fst hkv
    obtain ⟨n, hn, he⟩ := List.mem_map.mp hmem
    rw [← he]
    intro hc
    obtain rfl : n = key := by simpa using hc
    exact hnot hn
  · intro v
    apply optGet_ok_iff
    rw [hkeys g]
    exact hnd.map (fun a b h => by simpa using h)

/-- `OptionsGeneral.__getitem__` (inherited from `OptionsBase`). -/
def OptionsGeneral.getitem (g : OptionsGeneral) (key : String) :
    Except String Py := optGet g.asdict key

/-- `OptionsInput.__getitem__` (inherited from `OptionsBase`). -/
def OptionsInput.getitem (g : OptionsInput) (key : String) :
    Except String Py := optGet g.asdict key

/-- `OptionsOutput.__getitem__` (inherited from `OptionsBase`). -/
def OptionsOutput.getitem (g : OptionsOutput) (key : String) :
    Except String Py := optGet g.asdict key

/-- `OptionsEvents.__getitem__` (inherited from `OptionsBase`). -/
def OptionsEvents.getitem (g : OptionsEvents) (key : String) :
    Except String Py := optGet g.asdict key

/-- `OptionsTree.__getitem__` (inherited from `OptionsBase`). -/
def OptionsTree.getitem (g : OptionsTree) (key : String) :
    Except String Py := optGet g.asdict key

/-- `OptionsWood.__getitem__` (inherited from `OptionsBase`). -/
def OptionsWood.getitem (g : OptionsWood) (key : String) :
    Except String Py := optGet g.asdict key

/-- `OptionsInternode.__getitem__` (inherited from `OptionsBase`). -/
def OptionsInternode.getitem (g : OptionsInternode) (key : String) :
    Except String Py := optGet g.asdict key

/-- `OptionsApex.__getitem__` (inherited from `OptionsBase`). -/
def OptionsApex.getitem (g : OptionsApex) (key : String) :
    Except String Py := optGet g.asdict key

/-- `OptionsMarkov.__getitem__` (inherited from `OptionsBase`). -/
def OptionsMarkov.getitem (g : OptionsMarkov) (key : String) :
    Except String Py := optGet g.asdict key

/-- `OptionsFruit.__getitem__` (inherited from `OptionsBase`). -/
def OptionsFruit.getitem (g : OptionsFruit) (key : String) :
    Except String Py := optGet g.asdict key

/-- `OptionsLeaf.__getitem__` (inherited from `OptionsBase`). -/
def OptionsLeaf.getitem (g : OptionsLeaf) (key : String) :
    Except String Py := optGet g.asdict key

/-- C6: for every parameter group, reading a key that is not a declared
field name raises the unknown-field error (never a silent default), and
reading a declared field name returns exactly the value the group's
exported mapping holds for it. -/
theorem options_field_access_spec :
    (∀ (g : OptionsGeneral) (key : String),
      (key ∉ OptionsGeneral.names →
        OptionsGeneral.getitem g key = .error ("KeyError: " ++ key)) ∧
      (∀ v, OptionsGeneral.getitem g key = .ok v ↔
        (PyKey.s key, v) ∈ g.asdict)) ∧
    (∀ (g : OptionsInput) (key : String),
      (key ∉ OptionsInput.names →
        OptionsInput.getitem g key = .error ("KeyError: " ++ key)) ∧
      (∀ v, OptionsInput.getitem g key = .ok v ↔
        (PyKey.s key, v) ∈ g.asdict)) ∧
    (∀ (g : OptionsOutput) (key : String),
      (key ∉ OptionsOutput.names →
        OptionsOutput.getitem g key = .error ("KeyError: " ++ key)) ∧
      (∀ v, OptionsOutput.getitem g key = .ok v ↔
        (PyKey.s key, v) ∈ g.asdict)) ∧
    (∀ (g : OptionsEvents) (key : String),
      (key ∉ OptionsEvents.names →
        OptionsEvents.getitem g key = .error ("KeyError: " ++ key)) ∧
      (∀ v, OptionsEvents.getitem g key = .ok v ↔
        (PyKey.s key, v) ∈ g.asdict)) ∧
    (∀ (g : OptionsTree) (key : String),
      (key ∉ OptionsTree.names →
        OptionsTree.getitem g key = .error ("KeyError: " ++ key)) ∧
      (∀ v, OptionsTree.getitem g key = .ok v ↔
        (PyKey.s key, v) ∈ g.asdict)) ∧
    (∀ (g : OptionsWood) (key : String),
      (key ∉ OptionsWood.names →
        OptionsWood.getitem g key = .error ("KeyError: " ++ key)) ∧
      (∀ v, OptionsWood.getitem g key = .ok v ↔
        (PyKey.s key, v) ∈ g.asdict)) ∧
    (∀ (g : OptionsInternode) (key : String),
      (key ∉ OptionsInternode.names →
        OptionsInternode.getitem g key = .error ("KeyError: " ++ key)) ∧
      (∀ v, OptionsInternode.getitem g key = .ok v ↔
        (PyKey.s key, v) ∈ g.asdict)) ∧
    (∀ (g : OptionsApex) (key : String),
      (key ∉ OptionsApex.names →
        OptionsApex.getitem g key = .error ("KeyError: " ++ key)) ∧
      (∀ v, OptionsApex.getitem g key = .ok v ↔
        (PyKey.s key, v) ∈ g.asdict)) ∧
    (∀ (g : OptionsMarkov) (key : String),
      (key ∉ OptionsMarkov.names →
        OptionsMarkov.getitem g key = .error ("KeyError: " ++ key)) ∧
      (∀ v, OptionsMarkov.getitem g key = .ok v ↔
        (PyKey.s key, v) ∈ g.asdict)) ∧
    (∀ (g : OptionsFruit) (key : String),
      (key ∉ OptionsFruit.names →
        OptionsFruit.getitem g key = .error ("KeyError: " ++ key)) ∧
      (∀ v, OptionsFruit.getitem g key = .ok v ↔
        (PyKey.s key, v) ∈ g.asdict)) ∧
    (∀ (g : OptionsLeaf) (key : String),
      (key ∉ OptionsLeaf.names →
        OptionsLeaf.getitem g key = .error ("KeyError: " ++ key)) ∧
      (∀ v, OptionsLeaf.getitem g key = .ok v ↔
        (PyKey.s key, v) ∈ g.asdict)) :=
  ⟨fun g key => group_getitem_spec OptionsGeneral.asdict
     OptionsGeneral.names (fun g => rfl) (by decide) g key,
   fun g key => group_getitem_spec OptionsInput.asdict
     OptionsInput.names (fun g => rfl) (by decide) g key,
   fun g key => group_getitem_spec OptionsOutput.asdict
     OptionsOutput.names (fun g => rfl) (by decide) g key,
   fun g key => group_getitem_spec OptionsEvents.asdict
     OptionsEvents.names (fun g => rfl) (by decide) g key,
   fun g key => group_getitem_spec OptionsTree.asdict
     OptionsTree.names (fun g => rfl) (by decide) g key,
   fun g key => group_getitem_spec OptionsWood.asdict
     OptionsWood.names (fun g => rfl) (by decide) g key,
   fun g key => group_getitem_spec OptionsInternode.asdict
     OptionsInternode.names (fun g => rfl) (by decide) g key,
   fun g key => group_getitem_spec OptionsApex.asdict
     OptionsApex.names (fun g => rfl) (by decide) g key,
   fun g key => group_getitem_spec OptionsMarkov.asdict
     OptionsMarkov.names (fun g => rfl) (by decide) g key,
   fun g key => group_getitem_spec OptionsFruit.asdict
     OptionsFruit.names (fun g => rfl) (by decide) g key,
   fun g key => group_getitem_spec OptionsLeaf.asdict
     OptionsLeaf.names (fun g => rfl) (by decide) g key⟩

/-- Witness for C6: an undeclared key errors on a concrete group; a
declared key returns the stored value. -/
theorem options_field_access_spec_witness :
    ("bogus" ∉ OptionsGeneral.names) ∧
    OptionsGeneral.getitem ({} : OptionsGeneral) "bogus"
      = .error ("KeyError: bogus") ∧
    (OptionsGeneral.getitem ({} : OptionsGeneral) "seed"
        = .ok (Py.intV 1163078255) ↔
      (PyKey.s "seed", Py.intV 1163078255)
        ∈ ({} : OptionsGeneral).asdict) :=
  ⟨by decide,
   (options_field_access_spec.1 ({} : OptionsGeneral) "bogus").1 (by decide),
   (options_field_access_spec.1 ({} : OptionsGeneral) "seed").2
     (Py.intV 1163078255)⟩

/-!
## Claim theorems: root construction
-/

lemma make_dataclass_getD_spec {α : Type}
    (f : List (PyKey × Py) → Except String α)
    (x : Option (RawOr α)) (dflt g : α)
    (h : make_dataclass f (x.getD (.inst dflt)) = .ok g) :
    (∀ g0, x = some (.inst g0) → g = g0) ∧
    (∀ d, x = some (.raw d) → f d = .ok g) ∧
    (x = Option.none → g = dflt) := by
  rcases x with _ | ⟨g0 | d⟩
  · simp only [Option.getD, make_dataclass] at h
    obtain rfl : dflt = g := by simpa using h
    exact ⟨fun g0 hc => by simp at hc, fun d hc => by simp at hc,
      fun _ => rfl⟩
  · simp only [Option.getD, make_dataclass] at h
    obtain rfl : g0 = g := by simpa using h
    refine ⟨fun g1 hc => ?_, fun d hc => by simp at hc, fun hc => by simp at hc⟩
    simp only [Option.some.injEq] at hc
    injection hc
  · simp only [Option.getD, make_dataclass] at h
    refine ⟨fun g1 hc => by simp at hc, fun d' hc => ?_,
      fun hc => by simp at hc⟩
    simp only [Option.some.injEq] at hc
    injection hc with hd
    rw [← hd]
    exact h

/-- C4: for every construction of the root from absent entries, matching
group instances or raw mappings, a successful construction uses a supplied
instance unmodified, coerces a supplied raw mapping through that group's
own construction (markov normalization included), and builds an
all-defaults group for an absent entry — so every attribute is a typed
group, never a raw mapping. -/
theorem options_construct_dispatch
    (general : Option (RawOr OptionsGeneral))
    (input : Option (RawOr OptionsInput))
    (output : Option (RawOr OptionsOutput))
    (events : Option (RawOr OptionsEvents))
    (tree : Option (RawOr OptionsTree))
    (wood : Option (RawOr OptionsWood))
    (internode : Option (RawOr OptionsInternode))
    (apex : Option (RawOr OptionsApex))
    (markov : Option (RawOr OptionsMarkov))
    (fruit : Option (RawOr OptionsFruit))
    (leaf : Option (RawOr OptionsLeaf))
    (opts : Options)
    (h : Options.construct general input output events tree wood internode apex markov fruit leaf = .ok opts) :
    ((∀ g0, general = some (.inst g0) → opts.general = g0) ∧
     (∀ d, general = some (.raw d) → OptionsGeneral.fromDict d = .ok opts.general) ∧
     (general = Option.none → opts.general = ({} : OptionsGeneral))) ∧
    ((∀ g0, input = some (.inst g0) → opts.input = g0) ∧
     (∀ d, input = some (.raw d) → OptionsInput.fromDict d = .ok opts.input) ∧
     (input = Option.none → opts.input = ({} : OptionsInput))) ∧
    ((∀ g0, output = some (.inst g0) → opts.output = g0) ∧
     (∀ d, output = some (.raw d) → OptionsOutput.fromDict d = .ok opts.output) ∧
     (output = Option.none → opts.output = ({} : OptionsOutput))) ∧
    ((∀ g0, events = some (.inst g0) → opts.events = g0) ∧
     (∀ d, events = some (.raw d) → OptionsEvents.fromDict d = .ok opts.events) ∧
     (events = Option.none → opts.events = ({} : OptionsEvents))) ∧
    ((∀ g0, tree = some (.inst g0) → opts.tree = g0) ∧
     (∀ d, tree = some (.raw d) → OptionsTree.fromDict d = .ok opts.tree) ∧
     (tree = Option.none → opts.tree = ({} : OptionsTree))) ∧
    ((∀ g0, wood = some (.inst g0) → opts.wood = g0) ∧
     (∀ d, wood = some (.raw d) → OptionsWood.fromDict d = .ok opts.wood) ∧
     (wood = Option.none → opts.wood = ({} : OptionsWood))) ∧
    ((∀ g0, internode = some (.inst g0) → opts.internode = g0) ∧
     (∀ d, internode = some (.raw d) → OptionsInternode.fromDict d = .ok opts.internode) ∧
     (internode = Option.none → opts.internode = ({} : OptionsInternode))) ∧
    ((∀ g0, apex = some (.inst g0) → opts.apex = g0) ∧
     (∀ d, apex = some (.raw d) → OptionsApex.fromDict d = .ok opts.apex) ∧
     (apex = Option.none → opts.apex = ({} : OptionsApex))) ∧
    ((∀ g0, markov = some (.inst g0) → opts.markov = g0) ∧
     (∀ d, markov = some (.raw d) → OptionsMarkov.fromDict d = .ok opts.markov) ∧
     (markov = Option.none → opts.markov = ({} : OptionsMarkov))) ∧
    ((∀ g0, fruit = some (.inst g0) → opts.fruit = g0) ∧
     (∀ d, fruit = some (.raw d) → OptionsFruit.fromDict d = .ok opts.fruit) ∧
     (fruit = Option.none → opts.fruit = ({} : OptionsFruit))) ∧
    ((∀ g0, leaf = some (.inst g0) → opts.leaf = g0) ∧
     (∀ d, leaf = some (.raw d) → OptionsLeaf.fromDict d = .ok opts.leaf) ∧
     (leaf = Option.none → opts.leaf = ({} : OptionsLeaf))) := by
  unfold Options.construct at h
  rcases hx0 : make_dataclass OptionsGeneral.fromDict (general.getD (.inst {})) with e | g0
  · rw [hx0] at h
    simp [except_bind_err] at h
  rw [hx0, except_bind_ok] at h
  rcases hx1 : make_dataclass OptionsInput.fromDict (input.getD (.inst {})) with e | g1
  · rw [hx1] at h
    simp [except_bind_err] at h
  rw [hx1, except_bind_ok] at h
  rcases hx2 : make_dataclass OptionsOutput.fromDict (output.getD (.inst {})) with e | g2
  · rw [hx2] at h
    simp [except_bind_err] at h
  rw [hx2, except_bind_ok] at h
  rcases hx3 : make_dataclass OptionsEvents.fromDict (events.getD (.inst {})) with e | g3
  · rw [hx3] at h
    simp [except_bind_err] at h
  rw [hx3, except_bind_ok] at h
  rcases hx4 : make_dataclass OptionsTree.fromDict (tree.getD (.inst {})) with e | g4
  · rw [hx4] at h
    simp [except_bind_err] at h
  rw [hx4, except_bind_ok] at h
  rcases hx5 : make_dataclass OptionsWood.fromDict (wood.getD (.inst {})) with e | g5
  · rw [hx5] at h
    simp [except_bind_err] at h
  rw [hx5, except_bind_ok] at h
  rcases hx6 : make_dataclass OptionsInternode.fromDict (internode.getD (.inst {})) with e | g6
  · rw [hx6] at h
    simp [except_bind_err] at h
  rw [hx6, except_bind_ok] at h
  rcases hx7 : make_dataclass OptionsApex.fromDict (apex.getD (.inst {})) with e | g7
  · rw [hx7] at h
    simp [except_bind_err] at h
  rw [hx7, except_bind_ok] at h
  rcases hx8 : make_dataclass OptionsMarkov.fromDict (markov.getD (.inst {})) with e | g8
  · rw [hx8] at h
    simp [except_bind_err] at h
  rw [hx8, except_bind_ok] at h
  rcases hx9 : make_dataclass OptionsFruit.fromDict (fruit.getD (.inst {})) with e | g9
  · rw [hx9] at h
    simp [except_bind_err] at h
  rw [hx9, except_bind_ok] at h
  rcases hx10 : make_dataclass OptionsLeaf.fromDict (leaf.getD (.inst {})) with e | g10
  · rw [hx10] at h
    simp [except_bind_err] at h
  rw [hx10, except_bind_ok] at h
  simp only [except_pure, Except.ok.injEq] at h
  subst h
  exact ⟨
    make_dataclass_getD_spec OptionsGeneral.fromDict general {} g0 hx0,
    make_dataclass_getD_spec OptionsInput.fromDict input {} g1 hx1,
    make_dataclass_getD_spec OptionsOutput.fromDict output {} g2 hx2,
    make_dataclass_getD_spec OptionsEvents.fromDict events {} g3 hx3,
    make_dataclass_getD_spec OptionsTree.fromDict tree {} g4 hx4,
    make_dataclass_getD_spec OptionsWood.fromDict wood {} g5 hx5,
    make_dataclass_getD_spec OptionsInternode.fromDict internode {} g6 hx6,
    make_dataclass_getD_spec OptionsApex.fromDict apex {} g7 hx7,
    make_dataclass_getD_spec OptionsMarkov.fromDict markov {} g8 hx8,
    make_dataclass_getD_spec OptionsFruit.fromDict fruit {} g9 hx9,
    make_dataclass_getD_spec OptionsLeaf.fromDict leaf {} g10 hx10⟩

/-- Witness for C4: one supplied instance, one supplied raw mapping, nine
absent entries. -/
theorem options_construct_dispatch_witness :
    (Options.construct (some (.inst { seed := 7 }))
        (some (.raw [(PyKey.s "lpy_path", Py.strV "p")]))
        Option.none Option.none Option.none Option.none Option.none
        Option.none Option.none Option.none Option.none
      = .ok { general := { seed := 7 }, input := { lpy_path := "p" } }) ∧
    ({ general := { seed := 7 }, input := { lpy_path := "p" } }
        : Options).general = { seed := 7 } ∧
    OptionsInput.fromDict [(PyKey.s "lpy_path", Py.strV "p")]
      = .ok ({ general := { seed := 7 }, input := { lpy_path := "p" } }
          : Options).input ∧
    ({ general := { seed := 7 }, input := { lpy_path := "p" } }
        : Options).markov = ({} : OptionsMarkov) := by
  have h := options_construct_dispatch (some (.inst { seed := 7 }))
    (some (.raw [(PyKey.s "lpy_path", Py.strV "p")]))
    Option.none Option.none Option.none Option.none Option.none
    Option.none Option.none Option.none Option.none
    { general := { seed := 7 }, input := { lpy_path := "p" } } rfl
  exact ⟨rfl, h.1.1 _ rfl, h.2.1.2.1 _ rfl,
    (h.2.2.2.2.2.2.2.2).1.2.2 rfl⟩

/-- C8: sub-group coercion is independent across siblings — supplying a
raw mapping for exactly one sub-group leaves each of the other ten
attributes equal to the all-defaults instance of its group type. -/
theorem options_construct_frame_independent :
    (∀ (d : List (PyKey × Py)) (opts : Options),
      Options.construct (some (.raw d)) Option.none Option.none Option.none Option.none Option.none Option.none Option.none Option.none Option.none Option.none
          = .ok opts →
      opts.input = ({} : OptionsInput) ∧
      opts.output = ({} : OptionsOutput) ∧
      opts.events = ({} : OptionsEvents) ∧
      opts.tree = ({} : OptionsTree) ∧
      opts.wood = ({} : OptionsWood) ∧
      opts.internode = ({} : OptionsInternode) ∧
      opts.apex = ({} : OptionsApex) ∧
      opts.markov = ({} : OptionsMarkov) ∧
      opts.fruit = ({} : OptionsFruit) ∧
      opts.leaf = ({} : OptionsLeaf)) ∧
    (∀ (d : List (PyKey × Py)) (opts : Options),
      Options.construct Option.none (some (.raw d)) Option.none Option.none Option.none Option.none Option.none Option.none Option.none Option.none Option.none
          = .ok opts →
      opts.general = ({} : OptionsGeneral) ∧
      opts.output = ({} : OptionsOutput) ∧
      opts.events = ({} : OptionsEvents) ∧
      opts.tree = ({} : OptionsTree) ∧
      opts.wood = ({} : OptionsWood) ∧
      opts.internode = ({} : OptionsInternode) ∧
      opts.apex = ({} : OptionsApex) ∧
      opts.markov = ({} : OptionsMarkov) ∧
      opts.fruit = ({} : OptionsFruit) ∧
      opts.leaf = ({} : OptionsLeaf)) ∧
    (∀ (d : List (PyKey × Py)) (opts : Options),
      Options.construct Option.none Option.none (some (.raw d)) Option.none Option.none Option.none Option.none Option.none Option.none Option.none Option.none
          = .ok opts →
      opts.general = ({} : OptionsGeneral) ∧
      opts.input = ({} : OptionsInput) ∧
      opts.events = ({} : OptionsEvents) ∧
      opts.tree = ({} : OptionsTree) ∧
      opts.wood = ({} : OptionsWood) ∧
      opts.internode = ({} : OptionsInternode) ∧
      opts.apex = ({} : OptionsApex) ∧
      opts.markov = ({} : OptionsMarkov) ∧
      opts.fruit = ({} : OptionsFruit) ∧
      opts.leaf = ({} : OptionsLeaf)) ∧
    (∀ (d : List (PyKey × Py)) (opts : Options),
      Options.construct Option.none Option.none Option.none (some (.raw d)) Option.none Option.none Option.none Option.none Option.none Option.none Option.none
          = .ok opts →
      opts.general = ({} : OptionsGeneral) ∧
      opts.input = ({} : OptionsInput) ∧
      opts.output = ({} : OptionsOutput) ∧
      opts.tree = ({} : OptionsTree) ∧
      opts.wood = ({} : OptionsWood) ∧
      opts.internode = ({} : OptionsInternode) ∧
      opts.apex = ({} : OptionsApex) ∧
      opts.markov = ({} : OptionsMarkov) ∧
      opts.fruit = ({} : OptionsFruit) ∧
      opts.leaf = ({} : OptionsLeaf)) ∧
    (∀ (d : List (PyKey × Py)) (opts : Options),
      Options.construct Option.none Option.none Option.none Option.none (some (.raw d)) Option.none Option.none Option.none Option.none Option.none Option.none
          = .ok opts →
      opts.general = ({} : OptionsGeneral) ∧
      opts.input = ({} : OptionsInput) ∧
      opts.output = ({} : OptionsOutput) ∧
      opts.events = ({} : OptionsEvents) ∧
      opts.wood = ({} : OptionsWood) ∧
      opts.internode = ({} : OptionsInternode) ∧
      opts.apex = ({} : OptionsApex) ∧
      opts.markov = ({} : OptionsMarkov) ∧
      opts.fruit = ({} : OptionsFruit) ∧
      opts.leaf = ({} : OptionsLeaf)) ∧
    (∀ (d : List (PyKey × Py)) (opts : Options),
      Options.construct Option.none Option.none Option.none Option.none Option.none (some (.raw d)) Option.none Option.none Option.none Option.none Option.none
          = .ok opts →
      opts.general = ({} : OptionsGeneral) ∧
      opts.input = ({} : OptionsInput) ∧
      opts.output = ({} : OptionsOutput) ∧
      opts.events = ({} : OptionsEvents) ∧
      opts.tree = ({} : OptionsTree) ∧
      opts.internode = ({} : OptionsInternode) ∧
      opts.apex = ({} : OptionsApex) ∧
      opts.markov = ({} : OptionsMarkov) ∧
      opts.fruit = ({} : OptionsFruit) ∧
      opts.leaf = ({} : OptionsLeaf)) ∧
    (∀ (d : List (PyKey × Py)) (opts : Options),
      Options.construct Option.none Option.none Option.none Option.none Option.none Option.none (some (.raw d)) Option.none Option.none Option.none Option.none
          = .ok opts →
      opts.general = ({} : OptionsGeneral) ∧
      opts.input = ({} : OptionsInput) ∧
      opts.output = ({} : OptionsOutput) ∧
      opts.events = ({} : OptionsEvents) ∧
      opts.tree = ({} : OptionsTree) ∧
      opts.wood = ({} : OptionsWood) ∧
      opts.apex = ({} : OptionsApex) ∧
      opts.markov = ({} : OptionsMarkov) ∧
      opts.fruit = ({} : OptionsFruit) ∧
      opts.leaf = ({} : OptionsLeaf)) ∧
    (∀ (d : List (PyKey × Py)) (opts : Options),
      Options.construct Option.none Option.none Option.none Option.none Option.none Option.none Option.none (some (.raw d)) Option.none Option.none Option.none
          = .ok opts →
      opts.general = ({} : OptionsGeneral) ∧
      opts.input = ({} : OptionsInput) ∧
      opts.output = ({} : OptionsOutput) ∧
      opts.events = ({} : OptionsEvents) ∧
      opts.tree = ({} : OptionsTree) ∧
      opts.wood = ({} : OptionsWood) ∧
      opts.internode = ({} : OptionsInternode) ∧
      opts.markov = ({} : OptionsMarkov) ∧
      opts.fruit = ({} : OptionsFruit) ∧
      opts.leaf = ({} : OptionsLeaf)) ∧
    (∀ (d : List (PyKey × Py)) (opts : Options),
      Options.construct Option.none Option.none Option.none Option.none Option.none Option.none Option.none Option.none (some (.raw d)) Option.none Option.none
          = .ok opts →
      opts.general = ({} : OptionsGeneral) ∧
      opts.input = ({} : OptionsInput) ∧
      opts.output = ({} : OptionsOutput) ∧
      opts.events = ({} : OptionsEvents) ∧
      opts.tree = ({} : OptionsTree) ∧
      opts.wood = ({} : OptionsWood) ∧
      opts.internode = ({} : OptionsInternode) ∧
      opts.apex = ({} : OptionsApex) ∧
      opts.fruit = ({} : OptionsFruit) ∧
      opts.leaf = ({} : OptionsLeaf)) ∧
    (∀ (d : List (PyKey × Py)) (opts : Options),
      Options.construct Option.none Option.none Option.none Option.none Option.none Option.none Option.none Option.none Option.none (some (.raw d)) Option.none
          = .ok opts →
      opts.general = ({} : OptionsGeneral) ∧
      opts.input = ({} : OptionsInput) ∧
      opts.output = ({} : OptionsOutput) ∧
      opts.events = ({} : OptionsEvents) ∧
      opts.tree = ({} : OptionsTree) ∧
      opts.wood = ({} : OptionsWood) ∧
      opts.internode = ({} : OptionsInternode) ∧
      opts.apex = ({} : OptionsApex) ∧
      opts.markov = ({} : OptionsMarkov) ∧
      opts.leaf = ({} : OptionsLeaf)) ∧
    (∀ (d : List (PyKey × Py)) (opts : Options),
      Options.construct Option.none Option.none Option.none Option.none Option.none Option.none Option.none Option.none Option.none Option.none (some (.raw d))
          = .ok opts →
      opts.general = ({} : OptionsGeneral) ∧
      opts.input = ({} : OptionsInput) ∧
      opts.output = ({} : OptionsOutput) ∧
      opts.events = ({} : OptionsEvents) ∧
      opts.tree = ({} : OptionsTree) ∧
      opts.wood = ({} : OptionsWood) ∧
      opts.internode = ({} : OptionsInternode) ∧
      opts.apex = ({} : OptionsApex) ∧
      opts.markov = ({} : OptionsMarkov) ∧
      opts.fruit = ({} : OptionsFruit)) := by
  refine ⟨?_, ?_, ?_, ?_, ?_, ?_, ?_, ?_, ?_, ?_, ?_⟩
  · intro d opts h
    simp only [Options.construct, Option.getD, make_dataclass,
      except_bind_ok] at h
    rcases hx : OptionsGeneral.fromDict d with e | g
    · rw [hx] at h
      simp [except_bind_err] at h
    rw [hx, except_bind_ok] at h
    simp only [except_pure, Except.ok.injEq] at h
    subst h
    exact ⟨rfl, rfl, rfl, rfl, rfl, rfl, rfl, rfl, rfl, rfl⟩
  · intro d opts h
    simp only [Options.construct, Option.getD, make_dataclass,
      except_bind_ok] at h
    rcases hx : OptionsInput.fromDict d with e | g
    · rw [hx] at h
      simp [except_bind_err] at h
    rw [hx, except_bind_ok] at h
    simp only [except_pure, Except.ok.injEq] at h
    subst h
    exact ⟨rfl, rfl, rfl, rfl, rfl, rfl, rfl, rfl, rfl, rfl⟩
  · intro d opts h
    simp only [Options.construct, Option.getD, make_dataclass,
      except_bind_ok] at h
    rcases hx : OptionsOutput.fromDict d with e | g
    · rw [hx] at h
      simp [except_bind_err] at h
    rw [hx, except_bind_ok] at h
    simp only [except_pure, Except.ok.injEq] at h
    subst h
    exact ⟨rfl, rfl, rfl, rfl, rfl, rfl, rfl, rfl, rfl, rfl⟩
  · intro d opts h
    simp only [Options.construct, Option.getD, make_dataclass,
      except_bind_ok] at h
    rcases hx : OptionsEvents.fromDict d with e | g
    · rw [hx] at h
      simp [except_bind_err] at h
    rw [hx, except_bind_ok] at h
    simp only [except_pure, Except.ok.injEq] at h
    subst h
    exact ⟨rfl, rfl, rfl, rfl, rfl, rfl, rfl, rfl, rfl, rfl⟩
  · intro d opts h
    simp only [Options.construct, Option.getD, make_dataclass,
      except_bind_ok] at h
    rcases hx : OptionsTree.fromDict d with e | g
    · rw [hx] at h
      simp [except_bind_err] at h
    rw [hx, except_bind_ok] at h
    simp only [except_pure, Except.ok.injEq] at h
    subst h
    exact ⟨rfl, rfl, rfl, rfl, rfl, rfl, rfl, rfl, rfl, rfl⟩
  · intro d opts h
    simp only [Options.construct, Option.getD, make_dataclass,
      except_bind_ok] at h
    rcases hx : OptionsWood.fromDict d with e | g
    · rw [hx] at h
      simp [except_bind_err] at h
    rw [hx, except_bind_ok] at h
    simp only [except_pure, Except.ok.injEq] at h
    subst h
    exact ⟨rfl, rfl, rfl, rfl, rfl, rfl, rfl, rfl, rfl, rfl⟩
  · intro d opts h
    simp only [Options.construct, Option.getD, make_dataclass,
      except_bind_ok] at h
    rcases hx : OptionsInternode.fromDict d with e | g
    · rw [hx] at h
      simp [except_bind_err] at h
    rw [hx, except_bind_ok] at h
    simp only [except_pure, Except.ok.injEq] at h
    subst h
    exact ⟨rfl, rfl, rfl, rfl, rfl, rfl, rfl, rfl, rfl, rfl⟩
  · intro d opts h
    simp only [Options.construct, Option.getD, make_dataclass,
      except_bind_ok] at h
    rcases hx : OptionsApex.fromDict d with e | g
    · rw [hx] at h
      simp [except_bind_err] at h
    rw [hx, except_bind_ok] at h
    simp only [except_pure, Except.ok.injEq] at h
    subst h
    exact ⟨rfl, rfl, rfl, rfl, rfl, rfl, rfl, rfl, rfl, rfl⟩
  · intro d opts h
    simp only [Options.construct, Option.getD, make_dataclass,
      except_bind_ok] at h
    rcases hx : OptionsMarkov.fromDict d with e | g
    · rw [hx] at h
      simp [except_bind_err] at h
    rw [hx, except_bind_ok] at h
    simp only [except_pure, Except.ok.injEq] at h
    subst h
    exact ⟨rfl, rfl, rfl, rfl, rfl, rfl, rfl, rfl, rfl, rfl⟩
  · intro d opts h
    simp only [Options.construct, Option.getD, make_dataclass,
      except_bind_ok] at h
    rcases hx : OptionsFruit.fromDict d with e | g
    · rw [hx] at h
      simp [except_bind_err] at h
    rw [hx, except_bind_ok] at h
    simp only [except_pure, Except.ok.injEq] at h
    subst h
    exact ⟨rfl, rfl, rfl, rfl, rfl, rfl, rfl, rfl, rfl, rfl⟩
  · intro d opts h
    simp only [Options.construct, Option.getD, make_dataclass,
      except_bind_ok] at h
    rcases hx : OptionsLeaf.fromDict d with e | g
    · rw [hx] at h
      simp [except_bind_err] at h
    rw [hx, except_bind_ok] at h
    simp only [except_pure, Except.ok.injEq] at h
    subst h
    exact ⟨rfl, rfl, rfl, rfl, rfl, rfl, rfl, rfl, rfl, rfl⟩

/-- Witness for C8: a raw mapping for `general` only. -/
theorem options_construct_frame_independent_witness :
    (Options.construct (some (.raw [(PyKey.s "seed", Py.intV 9)]))
        Option.none Option.none Option.none Option.none Option.none
        Option.none Option.none Option.none Option.none Option.none
      = .ok { general := { seed := 9 } }) ∧
    ({ general := { seed := 9 } } : Options).input = ({} : OptionsInput) ∧
    ({ general := { seed := 9 } } : Options).markov
      = ({} : OptionsMarkov) := by
  have h := options_construct_frame_independent.1
    [(PyKey.s "seed", Py.intV 9)] { general := { seed := 9 } } rfl
  exact ⟨rfl, h.1, h.2.2.2.2.2.2.2.1⟩

/-!
## Claim theorems: serialization round trip
-/

lemma decodeStrInt_encode (m : List (String × Int)) :
    decodeStrInt (m.map (fun kv => (PyKey.s kv.1, Py.intV kv.2))) = some m := by
  induction m with
  | nil => rfl
  | cons kv rest ih =>
    obtain ⟨k, v⟩ := kv
    simp [decodeStrInt, ih]

lemma decodeStrStr_encode (m : List (String × String)) :
    decodeStrStr (m.map (fun kv => (PyKey.s kv.1, Py.strV kv.2))) = some m := by
  induction m with
  | nil => rfl
  | cons kv rest ih =>
    obtain ⟨k, v⟩ := kv
    simp [decodeStrStr, ih]

lemma roundtrip_general (g : OptionsGeneral) :
    OptionsGeneral.fromDict (OptionsGeneral.asdict g) = .ok g := rfl

lemma roundtrip_output (g : OptionsOutput) :
    OptionsOutput.fromDict (OptionsOutput.asdict g) = .ok g := rfl

lemma roundtrip_tree (g : OptionsTree) :
    OptionsTree.fromDict (OptionsTree.asdict g) = .ok g := rfl

lemma roundtrip_wood (g : OptionsWood) :
    OptionsWood.fromDict (OptionsWood.asdict g) = .ok g := rfl

lemma roundtrip_internode (g : OptionsInternode) :
    OptionsInternode.fromDict (OptionsInternode.asdict g) = .ok g := rfl

lemma roundtrip_apex (g : OptionsApex) :
    OptionsApex.fromDict (OptionsApex.asdict g) = .ok g := rfl

lemma roundtrip_fruit (g : OptionsFruit) :
    OptionsFruit.fromDict (OptionsFruit.asdict g) = .ok g := rfl

lemma roundtrip_leaf (g : OptionsLeaf) :
    OptionsLeaf.fromDict (OptionsLeaf.asdict g) = .ok g := rfl

lemma roundtrip_input (g : OptionsInput) :
    OptionsInput.fromDict (OptionsInput.asdict g) = .ok g := by
  simp [OptionsInput.fromDict, OptionsInput.asdict, OptionsInput.names,
    kwargsOk, getStrStrDict, getStr, dlookup, encodeStrStr,
    decodeStrStr_encode, except_bind_ok, except_pure]

lemma roundtrip_events (g : OptionsEvents) :
    OptionsEvents.fromDict (OptionsEvents.asdict g) = .ok g := by
  simp [OptionsEvents.fromDict, OptionsEvents.asdict, OptionsEvents.names,
    kwargsOk, getStrIntDict, dlookup, encodeStrInt, decodeStrInt_encode,
    except_bind_ok, except_pure]

lemma roundtrip_markov (g : OptionsMarkov)
    (h : g.terminal_fate = Py.dictV []) :
    OptionsMarkov.fromDict (OptionsMarkov.asdict g) = .ok g := by
  obtain ⟨ml, mnl, tf⟩ := g
  simp only at h
  subst h
  rfl

lemma Options.fromPy_asdict (root : Options) :
    Options.fromPy (.dictV (Options.asdict root))
      = Options.construct
          (some (.raw root.general.asdict)) (some (.raw root.input.asdict))
          (some (.raw root.output.asdict)) (some (.raw root.events.asdict))
          (some (.raw root.tree.asdict)) (some (.raw root.wood.asdict))
          (some (.raw root.internode.asdict)) (some (.raw root.apex.asdict))
          (some (.raw root.markov.asdict)) (some (.raw root.fruit.asdict))
          (some (.raw root.leaf.asdict)) := rfl

/-- C3 amended: for every root whose normalized fate table is the empty
mapping, `loads(dumps(root))` succeeds and reproduces the entire root —
every scalar field of all eleven sub-groups — exactly. -/
theorem options_loads_dumps_roundtrip (root : Options)
    (h : root.markov.terminal_fate = Py.dictV []) :
    Options.loads (Options.dumps root) = .ok root := by
  have hload : Options.loads (Options.dumps root)
      = Options.fromPy (.dictV (Options.asdict root)) := rfl
  rw [hload, Options.fromPy_asdict]
  unfold Options.construct
  simp only [Option.getD, make_dataclass]
  rw [roundtrip_general, except_bind_ok,
    roundtrip_input, except_bind_ok,
    roundtrip_output, except_bind_ok,
    roundtrip_events, except_bind_ok,
    roundtrip_tree, except_bind_ok,
    roundtrip_wood, except_bind_ok,
    roundtrip_internode, except_bind_ok,
    roundtrip_apex, except_bind_ok,
    roundtrip_markov root.markov h, except_bind_ok,
    roundtrip_fruit, except_bind_ok,
    roundtrip_leaf, except_bind_ok, except_pure]

/-- A normalized fate table with one entry. -/
def exampleFateDict : Py :=
  Py.dictV [(PyKey.pair 1 (PyKey.s "A"), Py.listV [Py.intV 1])]

/-- A root whose markov group carries a non-empty normalized fate table
(the first conjunct of the counterexample shows it arises from an actual
construction). -/
def exampleFateRoot : Options :=
  { markov := { terminal_fate := exampleFateDict } }

/-- C3 counterexample: a constructible root with a non-empty fate table
for which `loads(dumps(root))` fails instead of succeeding — replaying
the markov normalization rejects the pair-keyed mapping. -/
theorem options_roundtrip_fails_nonempty_fate :
    Options.construct Option.none Option.none Option.none Option.none
        Option.none Option.none Option.none Option.none
        (some (.raw [(PyKey.s "terminal_fate", encodeRawFate [[("A", [1])]])]))
        Option.none Option.none
      = .ok exampleFateRoot ∧
    Options.loads (Options.dumps exampleFateRoot)
      = .error ("AttributeError: object has no attribute items") :=
  ⟨rfl, rfl⟩

/-- Witness for the amended C3 at the all-defaults root. -/
theorem options_loads_dumps_roundtrip_witness :
    ({} : Options).markov.terminal_fate = Py.dictV [] ∧
    Options.loads (Options.dumps ({} : Options)) = .ok ({} : Options) :=
  ⟨rfl, options_loads_dumps_roundtrip ({} : Options) rfl⟩
